import Mathlib

/-!
Verification of the jamo library (`src/jamo/jamo.py`): a shallow embedding of
its character classification, syllable codec, Jamo/HCJ name bridge, and
compound decomposition/composition functions, together with proofs of the
specified properties.

Conventions of the embedding:
* Python strings are Lean `String`s; a "character" is a one-character string.
* Python exceptions are modelled with `Except PyErr`; `TypeError` raised by
  `ord` on non-single-character input, `InvalidJamoError`, `KeyError` from
  `unicodedata.lookup`, `ValueError` from `unicodedata.name`, and failed
  `assert` each get a constructor.
* The `unicodedata` tables are embedded for exactly the codepoint blocks the
  library classifies as Jamo/HCJ (`ucdNames`, `ucdDecompositions`); every
  `unicodedata.name`/`lookup`/`decomposition` call the theorems below exercise
  stays inside those blocks.
* Unbounded recursion (the recursive hex decomposition and the SSANG/hyphen
  expansion loop) is given explicit fuel; running out of fuel is a distinct
  error `PyErr.fuel` so that a proof can never mistake fuel exhaustion for
  normal behaviour.
-/

namespace JamoSpec

/-- The exceptions the library's code paths can raise, plus `fuel` (an
artifact of embedding unbounded loops with explicit fuel). -/
inductive PyErr where
  | typeError (msg : String)
  | invalidJamo (msg : String)
  | keyError
  | valueError
  | indexError
  | assertionError
  | fuel
  deriving DecidableEq, Repr

/-- Python `ord`: the codepoint of a one-character string, `TypeError`
otherwise. -/
def pyOrd (s : String) : Except PyErr Nat :=
  match s.data with
  | [c] => .ok c.toNat
  | _ => .error (.typeError "ord() expected a character")

/-- Python `chr` for the codepoints this development uses (all are valid
scalar values, below the surrogate range). -/
def chr (n : Nat) : String :=
  String.singleton (Char.ofNat n)

/-- Python `len` on strings (number of codepoints). -/
def pyLen (s : String) : Nat := s.data.length

/-- `is_hcj` from the source: U+3131..U+318E without the non-assigned
U+3164. -/
def is_hcj (character : String) : Except PyErr Bool := do
  let code ← pyOrd character
  pure (decide (0x3131 ≤ code ∧ code ≤ 0x318E) && decide (code ≠ 0x3164))

/-- `is_jamo` from the source: the four Jamo block ranges, `or` (short
circuited, as in Python) `is_hcj`. -/
def is_jamo (character : String) : Except PyErr Bool := do
  let code ← pyOrd character
  if decide (0x1100 ≤ code ∧ code ≤ 0x11FF) ||
     decide (0xA960 ≤ code ∧ code ≤ 0xA97C) ||
     decide (0xD7B0 ≤ code ∧ code ≤ 0xD7C6) ||
     decide (0xD7CB ≤ code ∧ code ≤ 0xD7FB) then
    pure true
  else
    is_hcj character

/-- `is_hcj_modern` from the source. -/
def is_hcj_modern (character : String) : Except PyErr Bool := do
  let code ← pyOrd character
  pure (decide (0x3131 ≤ code ∧ code ≤ 0x314E) ||
        decide (0x314F ≤ code ∧ code ≤ 0x3163))

/-- `is_jamo_modern` from the source. (The Python code computes
`ord(character)` first, so a non-single-character argument raises before
any range test, as in `is_jamo`.) -/
def is_jamo_modern (character : String) : Except PyErr Bool := do
  let code ← pyOrd character
  if decide (0x1100 ≤ code ∧ code ≤ 0x1112) ||
     decide (0x1161 ≤ code ∧ code ≤ 0x1175) ||
     decide (0x11A8 ≤ code ∧ code ≤ 0x11C2) then
    pure true
  else
    is_hcj_modern character

/-- `is_hangul_char` from the source: U+AC00..U+D7A3. -/
def is_hangul_char (character : String) : Except PyErr Bool := do
  let code ← pyOrd character
  pure (decide (0xAC00 ≤ code ∧ code ≤ 0xD7A3))

/-- Chunk 1 of the Unicode Character Database name table for the Hangul
blocks the code touches (HCJ U+3131..U+318E, Jamo U+1100..U+11FF, extended
Jamo U+A960.., U+D7B0.., U+D7CB..), embedding the data `unicodedata.name`
returns there; the HCJ block is listed first. See `ucdNames`. -/
def ucdNamesChunk1 : List (Nat × String) := [
  (0x3131, "HANGUL LETTER KIYEOK"),
  (0x3132, "HANGUL LETTER SSANGKIYEOK"),
  (0x3133, "HANGUL LETTER KIYEOK-SIOS"),
  (0x3134, "HANGUL LETTER NIEUN"),
  (0x3135, "HANGUL LETTER NIEUN-CIEUC"),
  (0x3136, "HANGUL LETTER NIEUN-HIEUH"),
  (0x3137, "HANGUL LETTER TIKEUT"),
  (0x3138, "HANGUL LETTER SSANGTIKEUT"),
  (0x3139, "HANGUL LETTER RIEUL"),
  (0x313A, "HANGUL LETTER RIEUL-KIYEOK"),
  (0x313B, "HANGUL LETTER RIEUL-MIEUM"),
  (0x313C, "HANGUL LETTER RIEUL-PIEUP"),
  (0x313D, "HANGUL LETTER RIEUL-SIOS"),
  (0x313E, "HANGUL LETTER RIEUL-THIEUTH"),
  (0x313F, "HANGUL LETTER RIEUL-PHIEUPH"),
  (0x3140, "HANGUL LETTER RIEUL-HIEUH"),
  (0x3141, "HANGUL LETTER MIEUM"),
  (0x3142, "HANGUL LETTER PIEUP"),
  (0x3143, "HANGUL LETTER SSANGPIEUP"),
  (0x3144, "HANGUL LETTER PIEUP-SIOS"),
  (0x3145, "HANGUL LETTER SIOS"),
  (0x3146, "HANGUL LETTER SSANGSIOS"),
  (0x3147, "HANGUL LETTER IEUNG"),
  (0x3148, "HANGUL LETTER CIEUC"),
  (0x3149, "HANGUL LETTER SSANGCIEUC"),
  (0x314A, "HANGUL LETTER CHIEUCH"),
  (0x314B, "HANGUL LETTER KHIEUKH"),
  (0x314C, "HANGUL LETTER THIEUTH"),
  (0x314D, "HANGUL LETTER PHIEUPH"),
  (0x314E, "HANGUL LETTER HIEUH"),
  (0x314F, "HANGUL LETTER A"),
  (0x3150, "HANGUL LETTER AE"),
  (0x3151, "HANGUL LETTER YA"),
  (0x3152, "HANGUL LETTER YAE"),
  (0x3153, "HANGUL LETTER EO"),
  (0x3154, "HANGUL LETTER E"),
  (0x3155, "HANGUL LETTER YEO"),
  (0x3156, "HANGUL LETTER YE"),
  (0x3157, "HANGUL LETTER O"),
  (0x3158, "HANGUL LETTER WA"),
  (0x3159, "HANGUL LETTER WAE"),
  (0x315A, "HANGUL LETTER OE"),
  (0x315B, "HANGUL LETTER YO"),
  (0x315C, "HANGUL LETTER U"),
  (0x315D, "HANGUL LETTER WEO"),
  (0x315E, "HANGUL LETTER WE")]

/-- Chunk 2 of the UCD name table (see `ucdNames`). -/
def ucdNamesChunk2 : List (Nat × String) := [
  (0x315F, "HANGUL LETTER WI"),
  (0x3160, "HANGUL LETTER YU"),
  (0x3161, "HANGUL LETTER EU"),
  (0x3162, "HANGUL LETTER YI"),
  (0x3163, "HANGUL LETTER I"),
  (0x3164, "HANGUL FILLER"),
  (0x3165, "HANGUL LETTER SSANGNIEUN"),
  (0x3166, "HANGUL LETTER NIEUN-TIKEUT"),
  (0x3167, "HANGUL LETTER NIEUN-SIOS"),
  (0x3168, "HANGUL LETTER NIEUN-PANSIOS"),
  (0x3169, "HANGUL LETTER RIEUL-KIYEOK-SIOS"),
  (0x316A, "HANGUL LETTER RIEUL-TIKEUT"),
  (0x316B, "HANGUL LETTER RIEUL-PIEUP-SIOS"),
  (0x316C, "HANGUL LETTER RIEUL-PANSIOS"),
  (0x316D, "HANGUL LETTER RIEUL-YEORINHIEUH"),
  (0x316E, "HANGUL LETTER MIEUM-PIEUP"),
  (0x316F, "HANGUL LETTER MIEUM-SIOS"),
  (0x3170, "HANGUL LETTER MIEUM-PANSIOS"),
  (0x3171, "HANGUL LETTER KAPYEOUNMIEUM"),
  (0x3172, "HANGUL LETTER PIEUP-KIYEOK"),
  (0x3173, "HANGUL LETTER PIEUP-TIKEUT"),
  (0x3174, "HANGUL LETTER PIEUP-SIOS-KIYEOK"),
  (0x3175, "HANGUL LETTER PIEUP-SIOS-TIKEUT"),
  (0x3176, "HANGUL LETTER PIEUP-CIEUC"),
  (0x3177, "HANGUL LETTER PIEUP-THIEUTH"),
  (0x3178, "HANGUL LETTER KAPYEOUNPIEUP"),
  (0x3179, "HANGUL LETTER KAPYEOUNSSANGPIEUP"),
  (0x317A, "HANGUL LETTER SIOS-KIYEOK"),
  (0x317B, "HANGUL LETTER SIOS-NIEUN"),
  (0x317C, "HANGUL LETTER SIOS-TIKEUT"),
  (0x317D, "HANGUL LETTER SIOS-PIEUP"),
  (0x317E, "HANGUL LETTER SIOS-CIEUC"),
  (0x317F, "HANGUL LETTER PANSIOS"),
  (0x3180, "HANGUL LETTER SSANGIEUNG"),
  (0x3181, "HANGUL LETTER YESIEUNG"),
  (0x3182, "HANGUL LETTER YESIEUNG-SIOS"),
  (0x3183, "HANGUL LETTER YESIEUNG-PANSIOS"),
  (0x3184, "HANGUL LETTER KAPYEOUNPHIEUPH"),
  (0x3185, "HANGUL LETTER SSANGHIEUH"),
  (0x3186, "HANGUL LETTER YEORINHIEUH"),
  (0x3187, "HANGUL LETTER YO-YA"),
  (0x3188, "HANGUL LETTER YO-YAE"),
  (0x3189, "HANGUL LETTER YO-I"),
  (0x318A, "HANGUL LETTER YU-YEO"),
  (0x318B, "HANGUL LETTER YU-YE"),
  (0x318C, "HANGUL LETTER YU-I")]

/-- Chunk 3 of the UCD name table (see `ucdNames`). -/
def ucdNamesChunk3 : List (Nat × String) := [
  (0x318D, "HANGUL LETTER ARAEA"),
  (0x318E, "HANGUL LETTER ARAEAE"),
  (0x1100, "HANGUL CHOSEONG KIYEOK"),
  (0x1101, "HANGUL CHOSEONG SSANGKIYEOK"),
  (0x1102, "HANGUL CHOSEONG NIEUN"),
  (0x1103, "HANGUL CHOSEONG TIKEUT"),
  (0x1104, "HANGUL CHOSEONG SSANGTIKEUT"),
  (0x1105, "HANGUL CHOSEONG RIEUL"),
  (0x1106, "HANGUL CHOSEONG MIEUM"),
  (0x1107, "HANGUL CHOSEONG PIEUP"),
  (0x1108, "HANGUL CHOSEONG SSANGPIEUP"),
  (0x1109, "HANGUL CHOSEONG SIOS"),
  (0x110A, "HANGUL CHOSEONG SSANGSIOS"),
  (0x110B, "HANGUL CHOSEONG IEUNG"),
  (0x110C, "HANGUL CHOSEONG CIEUC"),
  (0x110D, "HANGUL CHOSEONG SSANGCIEUC"),
  (0x110E, "HANGUL CHOSEONG CHIEUCH"),
  (0x110F, "HANGUL CHOSEONG KHIEUKH"),
  (0x1110, "HANGUL CHOSEONG THIEUTH"),
  (0x1111, "HANGUL CHOSEONG PHIEUPH"),
  (0x1112, "HANGUL CHOSEONG HIEUH"),
  (0x1113, "HANGUL CHOSEONG NIEUN-KIYEOK"),
  (0x1114, "HANGUL CHOSEONG SSANGNIEUN"),
  (0x1115, "HANGUL CHOSEONG NIEUN-TIKEUT"),
  (0x1116, "HANGUL CHOSEONG NIEUN-PIEUP"),
  (0x1117, "HANGUL CHOSEONG TIKEUT-KIYEOK"),
  (0x1118, "HANGUL CHOSEONG RIEUL-NIEUN"),
  (0x1119, "HANGUL CHOSEONG SSANGRIEUL"),
  (0x111A, "HANGUL CHOSEONG RIEUL-HIEUH"),
  (0x111B, "HANGUL CHOSEONG KAPYEOUNRIEUL"),
  (0x111C, "HANGUL CHOSEONG MIEUM-PIEUP"),
  (0x111D, "HANGUL CHOSEONG KAPYEOUNMIEUM"),
  (0x111E, "HANGUL CHOSEONG PIEUP-KIYEOK"),
  (0x111F, "HANGUL CHOSEONG PIEUP-NIEUN"),
  (0x1120, "HANGUL CHOSEONG PIEUP-TIKEUT"),
  (0x1121, "HANGUL CHOSEONG PIEUP-SIOS"),
  (0x1122, "HANGUL CHOSEONG PIEUP-SIOS-KIYEOK"),
  (0x1123, "HANGUL CHOSEONG PIEUP-SIOS-TIKEUT"),
  (0x1124, "HANGUL CHOSEONG PIEUP-SIOS-PIEUP"),
  (0x1125, "HANGUL CHOSEONG PIEUP-SSANGSIOS"),
  (0x1126, "HANGUL CHOSEONG PIEUP-SIOS-CIEUC"),
  (0x1127, "HANGUL CHOSEONG PIEUP-CIEUC"),
  (0x1128, "HANGUL CHOSEONG PIEUP-CHIEUCH"),
  (0x1129, "HANGUL CHOSEONG PIEUP-THIEUTH"),
  (0x112A, "HANGUL CHOSEONG PIEUP-PHIEUPH"),
  (0x112B, "HANGUL CHOSEONG KAPYEOUNPIEUP")]

/-- Chunk 4 of the UCD name table (see `ucdNames`). -/
def ucdNamesChunk4 : List (Nat × String) := [
  (0x112C, "HANGUL CHOSEONG KAPYEOUNSSANGPIEUP"),
  (0x112D, "HANGUL CHOSEONG SIOS-KIYEOK"),
  (0x112E, "HANGUL CHOSEONG SIOS-NIEUN"),
  (0x112F, "HANGUL CHOSEONG SIOS-TIKEUT"),
  (0x1130, "HANGUL CHOSEONG SIOS-RIEUL"),
  (0x1131, "HANGUL CHOSEONG SIOS-MIEUM"),
  (0x1132, "HANGUL CHOSEONG SIOS-PIEUP"),
  (0x1133, "HANGUL CHOSEONG SIOS-PIEUP-KIYEOK"),
  (0x1134, "HANGUL CHOSEONG SIOS-SSANGSIOS"),
  (0x1135, "HANGUL CHOSEONG SIOS-IEUNG"),
  (0x1136, "HANGUL CHOSEONG SIOS-CIEUC"),
  (0x1137, "HANGUL CHOSEONG SIOS-CHIEUCH"),
  (0x1138, "HANGUL CHOSEONG SIOS-KHIEUKH"),
  (0x1139, "HANGUL CHOSEONG SIOS-THIEUTH"),
  (0x113A, "HANGUL CHOSEONG SIOS-PHIEUPH"),
  (0x113B, "HANGUL CHOSEONG SIOS-HIEUH"),
  (0x113C, "HANGUL CHOSEONG CHITUEUMSIOS"),
  (0x113D, "HANGUL CHOSEONG CHITUEUMSSANGSIOS"),
  (0x113E, "HANGUL CHOSEONG CEONGCHIEUMSIOS"),
  (0x113F, "HANGUL CHOSEONG CEONGCHIEUMSSANGSIOS"),
  (0x1140, "HANGUL CHOSEONG PANSIOS"),
  (0x1141, "HANGUL CHOSEONG IEUNG-KIYEOK"),
  (0x1142, "HANGUL CHOSEONG IEUNG-TIKEUT"),
  (0x1143, "HANGUL CHOSEONG IEUNG-MIEUM"),
  (0x1144, "HANGUL CHOSEONG IEUNG-PIEUP"),
  (0x1145, "HANGUL CHOSEONG IEUNG-SIOS"),
  (0x1146, "HANGUL CHOSEONG IEUNG-PANSIOS"),
  (0x1147, "HANGUL CHOSEONG SSANGIEUNG"),
  (0x1148, "HANGUL CHOSEONG IEUNG-CIEUC"),
  (0x1149, "HANGUL CHOSEONG IEUNG-CHIEUCH"),
  (0x114A, "HANGUL CHOSEONG IEUNG-THIEUTH"),
  (0x114B, "HANGUL CHOSEONG IEUNG-PHIEUPH"),
  (0x114C, "HANGUL CHOSEONG YESIEUNG"),
  (0x114D, "HANGUL CHOSEONG CIEUC-IEUNG"),
  (0x114E, "HANGUL CHOSEONG CHITUEUMCIEUC"),
  (0x114F, "HANGUL CHOSEONG CHITUEUMSSANGCIEUC"),
  (0x1150, "HANGUL CHOSEONG CEONGCHIEUMCIEUC"),
  (0x1151, "HANGUL CHOSEONG CEONGCHIEUMSSANGCIEUC"),
  (0x1152, "HANGUL CHOSEONG CHIEUCH-KHIEUKH"),
  (0x1153, "HANGUL CHOSEONG CHIEUCH-HIEUH"),
  (0x1154, "HANGUL CHOSEONG CHITUEUMCHIEUCH"),
  (0x1155, "HANGUL CHOSEONG CEONGCHIEUMCHIEUCH"),
  (0x1156, "HANGUL CHOSEONG PHIEUPH-PIEUP"),
  (0x1157, "HANGUL CHOSEONG KAPYEOUNPHIEUPH"),
  (0x1158, "HANGUL CHOSEONG SSANGHIEUH"),
  (0x1159, "HANGUL CHOSEONG YEORINHIEUH")]

/-- Chunk 5 of the UCD name table (see `ucdNames`). -/
def ucdNamesChunk5 : List (Nat × String) := [
  (0x115A, "HANGUL CHOSEONG KIYEOK-TIKEUT"),
  (0x115B, "HANGUL CHOSEONG NIEUN-SIOS"),
  (0x115C, "HANGUL CHOSEONG NIEUN-CIEUC"),
  (0x115D, "HANGUL CHOSEONG NIEUN-HIEUH"),
  (0x115E, "HANGUL CHOSEONG TIKEUT-RIEUL"),
  (0x115F, "HANGUL CHOSEONG FILLER"),
  (0x1160, "HANGUL JUNGSEONG FILLER"),
  (0x1161, "HANGUL JUNGSEONG A"),
  (0x1162, "HANGUL JUNGSEONG AE"),
  (0x1163, "HANGUL JUNGSEONG YA"),
  (0x1164, "HANGUL JUNGSEONG YAE"),
  (0x1165, "HANGUL JUNGSEONG EO"),
  (0x1166, "HANGUL JUNGSEONG E"),
  (0x1167, "HANGUL JUNGSEONG YEO"),
  (0x1168, "HANGUL JUNGSEONG YE"),
  (0x1169, "HANGUL JUNGSEONG O"),
  (0x116A, "HANGUL JUNGSEONG WA"),
  (0x116B, "HANGUL JUNGSEONG WAE"),
  (0x116C, "HANGUL JUNGSEONG OE"),
  (0x116D, "HANGUL JUNGSEONG YO"),
  (0x116E, "HANGUL JUNGSEONG U"),
  (0x116F, "HANGUL JUNGSEONG WEO"),
  (0x1170, "HANGUL JUNGSEONG WE"),
  (0x1171, "HANGUL JUNGSEONG WI"),
  (0x1172, "HANGUL JUNGSEONG YU"),
  (0x1173, "HANGUL JUNGSEONG EU"),
  (0x1174, "HANGUL JUNGSEONG YI"),
  (0x1175, "HANGUL JUNGSEONG I"),
  (0x1176, "HANGUL JUNGSEONG A-O"),
  (0x1177, "HANGUL JUNGSEONG A-U"),
  (0x1178, "HANGUL JUNGSEONG YA-O"),
  (0x1179, "HANGUL JUNGSEONG YA-YO"),
  (0x117A, "HANGUL JUNGSEONG EO-O"),
  (0x117B, "HANGUL JUNGSEONG EO-U"),
  (0x117C, "HANGUL JUNGSEONG EO-EU"),
  (0x117D, "HANGUL JUNGSEONG YEO-O"),
  (0x117E, "HANGUL JUNGSEONG YEO-U"),
  (0x117F, "HANGUL JUNGSEONG O-EO"),
  (0x1180, "HANGUL JUNGSEONG O-E"),
  (0x1181, "HANGUL JUNGSEONG O-YE"),
  (0x1182, "HANGUL JUNGSEONG O-O"),
  (0x1183, "HANGUL JUNGSEONG O-U"),
  (0x1184, "HANGUL JUNGSEONG YO-YA"),
  (0x1185, "HANGUL JUNGSEONG YO-YAE"),
  (0x1186, "HANGUL JUNGSEONG YO-YEO"),
  (0x1187, "HANGUL JUNGSEONG YO-O")]

/-- Chunk 6 of the UCD name table (see `ucdNames`). -/
def ucdNamesChunk6 : List (Nat × String) := [
  (0x1188, "HANGUL JUNGSEONG YO-I"),
  (0x1189, "HANGUL JUNGSEONG U-A"),
  (0x118A, "HANGUL JUNGSEONG U-AE"),
  (0x118B, "HANGUL JUNGSEONG U-EO-EU"),
  (0x118C, "HANGUL JUNGSEONG U-YE"),
  (0x118D, "HANGUL JUNGSEONG U-U"),
  (0x118E, "HANGUL JUNGSEONG YU-A"),
  (0x118F, "HANGUL JUNGSEONG YU-EO"),
  (0x1190, "HANGUL JUNGSEONG YU-E"),
  (0x1191, "HANGUL JUNGSEONG YU-YEO"),
  (0x1192, "HANGUL JUNGSEONG YU-YE"),
  (0x1193, "HANGUL JUNGSEONG YU-U"),
  (0x1194, "HANGUL JUNGSEONG YU-I"),
  (0x1195, "HANGUL JUNGSEONG EU-U"),
  (0x1196, "HANGUL JUNGSEONG EU-EU"),
  (0x1197, "HANGUL JUNGSEONG YI-U"),
  (0x1198, "HANGUL JUNGSEONG I-A"),
  (0x1199, "HANGUL JUNGSEONG I-YA"),
  (0x119A, "HANGUL JUNGSEONG I-O"),
  (0x119B, "HANGUL JUNGSEONG I-U"),
  (0x119C, "HANGUL JUNGSEONG I-EU"),
  (0x119D, "HANGUL JUNGSEONG I-ARAEA"),
  (0x119E, "HANGUL JUNGSEONG ARAEA"),
  (0x119F, "HANGUL JUNGSEONG ARAEA-EO"),
  (0x11A0, "HANGUL JUNGSEONG ARAEA-U"),
  (0x11A1, "HANGUL JUNGSEONG ARAEA-I"),
  (0x11A2, "HANGUL JUNGSEONG SSANGARAEA"),
  (0x11A3, "HANGUL JUNGSEONG A-EU"),
  (0x11A4, "HANGUL JUNGSEONG YA-U"),
  (0x11A5, "HANGUL JUNGSEONG YEO-YA"),
  (0x11A6, "HANGUL JUNGSEONG O-YA"),
  (0x11A7, "HANGUL JUNGSEONG O-YAE"),
  (0x11A8, "HANGUL JONGSEONG KIYEOK"),
  (0x11A9, "HANGUL JONGSEONG SSANGKIYEOK"),
  (0x11AA, "HANGUL JONGSEONG KIYEOK-SIOS"),
  (0x11AB, "HANGUL JONGSEONG NIEUN"),
  (0x11AC, "HANGUL JONGSEONG NIEUN-CIEUC"),
  (0x11AD, "HANGUL JONGSEONG NIEUN-HIEUH"),
  (0x11AE, "HANGUL JONGSEONG TIKEUT"),
  (0x11AF, "HANGUL JONGSEONG RIEUL"),
  (0x11B0, "HANGUL JONGSEONG RIEUL-KIYEOK"),
  (0x11B1, "HANGUL JONGSEONG RIEUL-MIEUM"),
  (0x11B2, "HANGUL JONGSEONG RIEUL-PIEUP"),
  (0x11B3, "HANGUL JONGSEONG RIEUL-SIOS"),
  (0x11B4, "HANGUL JONGSEONG RIEUL-THIEUTH"),
  (0x11B5, "HANGUL JONGSEONG RIEUL-PHIEUPH")]

/-- Chunk 7 of the UCD name table (see `ucdNames`). -/
def ucdNamesChunk7 : List (Nat × String) := [
  (0x11B6, "HANGUL JONGSEONG RIEUL-HIEUH"),
  (0x11B7, "HANGUL JONGSEONG MIEUM"),
  (0x11B8, "HANGUL JONGSEONG PIEUP"),
  (0x11B9, "HANGUL JONGSEONG PIEUP-SIOS"),
  (0x11BA, "HANGUL JONGSEONG SIOS"),
  (0x11BB, "HANGUL JONGSEONG SSANGSIOS"),
  (0x11BC, "HANGUL JONGSEONG IEUNG"),
  (0x11BD, "HANGUL JONGSEONG CIEUC"),
  (0x11BE, "HANGUL JONGSEONG CHIEUCH"),
  (0x11BF, "HANGUL JONGSEONG KHIEUKH"),
  (0x11C0, "HANGUL JONGSEONG THIEUTH"),
  (0x11C1, "HANGUL JONGSEONG PHIEUPH"),
  (0x11C2, "HANGUL JONGSEONG HIEUH"),
  (0x11C3, "HANGUL JONGSEONG KIYEOK-RIEUL"),
  (0x11C4, "HANGUL JONGSEONG KIYEOK-SIOS-KIYEOK"),
  (0x11C5, "HANGUL JONGSEONG NIEUN-KIYEOK"),
  (0x11C6, "HANGUL JONGSEONG NIEUN-TIKEUT"),
  (0x11C7, "HANGUL JONGSEONG NIEUN-SIOS"),
  (0x11C8, "HANGUL JONGSEONG NIEUN-PANSIOS"),
  (0x11C9, "HANGUL JONGSEONG NIEUN-THIEUTH"),
  (0x11CA, "HANGUL JONGSEONG TIKEUT-KIYEOK"),
  (0x11CB, "HANGUL JONGSEONG TIKEUT-RIEUL"),
  (0x11CC, "HANGUL JONGSEONG RIEUL-KIYEOK-SIOS"),
  (0x11CD, "HANGUL JONGSEONG RIEUL-NIEUN"),
  (0x11CE, "HANGUL JONGSEONG RIEUL-TIKEUT"),
  (0x11CF, "HANGUL JONGSEONG RIEUL-TIKEUT-HIEUH"),
  (0x11D0, "HANGUL JONGSEONG SSANGRIEUL"),
  (0x11D1, "HANGUL JONGSEONG RIEUL-MIEUM-KIYEOK"),
  (0x11D2, "HANGUL JONGSEONG RIEUL-MIEUM-SIOS"),
  (0x11D3, "HANGUL JONGSEONG RIEUL-PIEUP-SIOS"),
  (0x11D4, "HANGUL JONGSEONG RIEUL-PIEUP-HIEUH"),
  (0x11D5, "HANGUL JONGSEONG RIEUL-KAPYEOUNPIEUP"),
  (0x11D6, "HANGUL JONGSEONG RIEUL-SSANGSIOS"),
  (0x11D7, "HANGUL JONGSEONG RIEUL-PANSIOS"),
  (0x11D8, "HANGUL JONGSEONG RIEUL-KHIEUKH"),
  (0x11D9, "HANGUL JONGSEONG RIEUL-YEORINHIEUH"),
  (0x11DA, "HANGUL JONGSEONG MIEUM-KIYEOK"),
  (0x11DB, "HANGUL JONGSEONG MIEUM-RIEUL"),
  (0x11DC, "HANGUL JONGSEONG MIEUM-PIEUP"),
  (0x11DD, "HANGUL JONGSEONG MIEUM-SIOS"),
  (0x11DE, "HANGUL JONGSEONG MIEUM-SSANGSIOS"),
  (0x11DF, "HANGUL JONGSEONG MIEUM-PANSIOS"),
  (0x11E0, "HANGUL JONGSEONG MIEUM-CHIEUCH"),
  (0x11E1, "HANGUL JONGSEONG MIEUM-HIEUH"),
  (0x11E2, "HANGUL JONGSEONG KAPYEOUNMIEUM"),
  (0x11E3, "HANGUL JONGSEONG PIEUP-RIEUL")]

/-- Chunk 8 of the UCD name table (see `ucdNames`). -/
def ucdNamesChunk8 : List (Nat × String) := [
  (0x11E4, "HANGUL JONGSEONG PIEUP-PHIEUPH"),
  (0x11E5, "HANGUL JONGSEONG PIEUP-HIEUH"),
  (0x11E6, "HANGUL JONGSEONG KAPYEOUNPIEUP"),
  (0x11E7, "HANGUL JONGSEONG SIOS-KIYEOK"),
  (0x11E8, "HANGUL JONGSEONG SIOS-TIKEUT"),
  (0x11E9, "HANGUL JONGSEONG SIOS-RIEUL"),
  (0x11EA, "HANGUL JONGSEONG SIOS-PIEUP"),
  (0x11EB, "HANGUL JONGSEONG PANSIOS"),
  (0x11EC, "HANGUL JONGSEONG IEUNG-KIYEOK"),
  (0x11ED, "HANGUL JONGSEONG IEUNG-SSANGKIYEOK"),
  (0x11EE, "HANGUL JONGSEONG SSANGIEUNG"),
  (0x11EF, "HANGUL JONGSEONG IEUNG-KHIEUKH"),
  (0x11F0, "HANGUL JONGSEONG YESIEUNG"),
  (0x11F1, "HANGUL JONGSEONG YESIEUNG-SIOS"),
  (0x11F2, "HANGUL JONGSEONG YESIEUNG-PANSIOS"),
  (0x11F3, "HANGUL JONGSEONG PHIEUPH-PIEUP"),
  (0x11F4, "HANGUL JONGSEONG KAPYEOUNPHIEUPH"),
  (0x11F5, "HANGUL JONGSEONG HIEUH-NIEUN"),
  (0x11F6, "HANGUL JONGSEONG HIEUH-RIEUL"),
  (0x11F7, "HANGUL JONGSEONG HIEUH-MIEUM"),
  (0x11F8, "HANGUL JONGSEONG HIEUH-PIEUP"),
  (0x11F9, "HANGUL JONGSEONG YEORINHIEUH"),
  (0x11FA, "HANGUL JONGSEONG KIYEOK-NIEUN"),
  (0x11FB, "HANGUL JONGSEONG KIYEOK-PIEUP"),
  (0x11FC, "HANGUL JONGSEONG KIYEOK-CHIEUCH"),
  (0x11FD, "HANGUL JONGSEONG KIYEOK-KHIEUKH"),
  (0x11FE, "HANGUL JONGSEONG KIYEOK-HIEUH"),
  (0x11FF, "HANGUL JONGSEONG SSANGNIEUN"),
  (0xA960, "HANGUL CHOSEONG TIKEUT-MIEUM"),
  (0xA961, "HANGUL CHOSEONG TIKEUT-PIEUP"),
  (0xA962, "HANGUL CHOSEONG TIKEUT-SIOS"),
  (0xA963, "HANGUL CHOSEONG TIKEUT-CIEUC"),
  (0xA964, "HANGUL CHOSEONG RIEUL-KIYEOK"),
  (0xA965, "HANGUL CHOSEONG RIEUL-SSANGKIYEOK"),
  (0xA966, "HANGUL CHOSEONG RIEUL-TIKEUT"),
  (0xA967, "HANGUL CHOSEONG RIEUL-SSANGTIKEUT"),
  (0xA968, "HANGUL CHOSEONG RIEUL-MIEUM"),
  (0xA969, "HANGUL CHOSEONG RIEUL-PIEUP"),
  (0xA96A, "HANGUL CHOSEONG RIEUL-SSANGPIEUP"),
  (0xA96B, "HANGUL CHOSEONG RIEUL-KAPYEOUNPIEUP"),
  (0xA96C, "HANGUL CHOSEONG RIEUL-SIOS"),
  (0xA96D, "HANGUL CHOSEONG RIEUL-CIEUC"),
  (0xA96E, "HANGUL CHOSEONG RIEUL-KHIEUKH"),
  (0xA96F, "HANGUL CHOSEONG MIEUM-KIYEOK"),
  (0xA970, "HANGUL CHOSEONG MIEUM-TIKEUT"),
  (0xA971, "HANGUL CHOSEONG MIEUM-SIOS")]

/-- Chunk 9 of the UCD name table (see `ucdNames`). -/
def ucdNamesChunk9 : List (Nat × String) := [
  (0xA972, "HANGUL CHOSEONG PIEUP-SIOS-THIEUTH"),
  (0xA973, "HANGUL CHOSEONG PIEUP-KHIEUKH"),
  (0xA974, "HANGUL CHOSEONG PIEUP-HIEUH"),
  (0xA975, "HANGUL CHOSEONG SSANGSIOS-PIEUP"),
  (0xA976, "HANGUL CHOSEONG IEUNG-RIEUL"),
  (0xA977, "HANGUL CHOSEONG IEUNG-HIEUH"),
  (0xA978, "HANGUL CHOSEONG SSANGCIEUC-HIEUH"),
  (0xA979, "HANGUL CHOSEONG SSANGTHIEUTH"),
  (0xA97A, "HANGUL CHOSEONG PHIEUPH-HIEUH"),
  (0xA97B, "HANGUL CHOSEONG HIEUH-SIOS"),
  (0xA97C, "HANGUL CHOSEONG SSANGYEORINHIEUH"),
  (0xD7B0, "HANGUL JUNGSEONG O-YEO"),
  (0xD7B1, "HANGUL JUNGSEONG O-O-I"),
  (0xD7B2, "HANGUL JUNGSEONG YO-A"),
  (0xD7B3, "HANGUL JUNGSEONG YO-AE"),
  (0xD7B4, "HANGUL JUNGSEONG YO-EO"),
  (0xD7B5, "HANGUL JUNGSEONG U-YEO"),
  (0xD7B6, "HANGUL JUNGSEONG U-I-I"),
  (0xD7B7, "HANGUL JUNGSEONG YU-AE"),
  (0xD7B8, "HANGUL JUNGSEONG YU-O"),
  (0xD7B9, "HANGUL JUNGSEONG EU-A"),
  (0xD7BA, "HANGUL JUNGSEONG EU-EO"),
  (0xD7BB, "HANGUL JUNGSEONG EU-E"),
  (0xD7BC, "HANGUL JUNGSEONG EU-O"),
  (0xD7BD, "HANGUL JUNGSEONG I-YA-O"),
  (0xD7BE, "HANGUL JUNGSEONG I-YAE"),
  (0xD7BF, "HANGUL JUNGSEONG I-YEO"),
  (0xD7C0, "HANGUL JUNGSEONG I-YE"),
  (0xD7C1, "HANGUL JUNGSEONG I-O-I"),
  (0xD7C2, "HANGUL JUNGSEONG I-YO"),
  (0xD7C3, "HANGUL JUNGSEONG I-YU"),
  (0xD7C4, "HANGUL JUNGSEONG I-I"),
  (0xD7C5, "HANGUL JUNGSEONG ARAEA-A"),
  (0xD7C6, "HANGUL JUNGSEONG ARAEA-E"),
  (0xD7CB, "HANGUL JONGSEONG NIEUN-RIEUL"),
  (0xD7CC, "HANGUL JONGSEONG NIEUN-CHIEUCH"),
  (0xD7CD, "HANGUL JONGSEONG SSANGTIKEUT"),
  (0xD7CE, "HANGUL JONGSEONG SSANGTIKEUT-PIEUP"),
  (0xD7CF, "HANGUL JONGSEONG TIKEUT-PIEUP"),
  (0xD7D0, "HANGUL JONGSEONG TIKEUT-SIOS"),
  (0xD7D1, "HANGUL JONGSEONG TIKEUT-SIOS-KIYEOK"),
  (0xD7D2, "HANGUL JONGSEONG TIKEUT-CIEUC"),
  (0xD7D3, "HANGUL JONGSEONG TIKEUT-CHIEUCH"),
  (0xD7D4, "HANGUL JONGSEONG TIKEUT-THIEUTH"),
  (0xD7D5, "HANGUL JONGSEONG RIEUL-SSANGKIYEOK"),
  (0xD7D6, "HANGUL JONGSEONG RIEUL-KIYEOK-HIEUH")]

/-- Chunk 10 of the UCD name table (see `ucdNames`). -/
def ucdNamesChunk10 : List (Nat × String) := [
  (0xD7D7, "HANGUL JONGSEONG SSANGRIEUL-KHIEUKH"),
  (0xD7D8, "HANGUL JONGSEONG RIEUL-MIEUM-HIEUH"),
  (0xD7D9, "HANGUL JONGSEONG RIEUL-PIEUP-TIKEUT"),
  (0xD7DA, "HANGUL JONGSEONG RIEUL-PIEUP-PHIEUPH"),
  (0xD7DB, "HANGUL JONGSEONG RIEUL-YESIEUNG"),
  (0xD7DC, "HANGUL JONGSEONG RIEUL-YEORINHIEUH-HIEUH"),
  (0xD7DD, "HANGUL JONGSEONG KAPYEOUNRIEUL"),
  (0xD7DE, "HANGUL JONGSEONG MIEUM-NIEUN"),
  (0xD7DF, "HANGUL JONGSEONG MIEUM-SSANGNIEUN"),
  (0xD7E0, "HANGUL JONGSEONG SSANGMIEUM"),
  (0xD7E1, "HANGUL JONGSEONG MIEUM-PIEUP-SIOS"),
  (0xD7E2, "HANGUL JONGSEONG MIEUM-CIEUC"),
  (0xD7E3, "HANGUL JONGSEONG PIEUP-TIKEUT"),
  (0xD7E4, "HANGUL JONGSEONG PIEUP-RIEUL-PHIEUPH"),
  (0xD7E5, "HANGUL JONGSEONG PIEUP-MIEUM"),
  (0xD7E6, "HANGUL JONGSEONG SSANGPIEUP"),
  (0xD7E7, "HANGUL JONGSEONG PIEUP-SIOS-TIKEUT"),
  (0xD7E8, "HANGUL JONGSEONG PIEUP-CIEUC"),
  (0xD7E9, "HANGUL JONGSEONG PIEUP-CHIEUCH"),
  (0xD7EA, "HANGUL JONGSEONG SIOS-MIEUM"),
  (0xD7EB, "HANGUL JONGSEONG SIOS-KAPYEOUNPIEUP"),
  (0xD7EC, "HANGUL JONGSEONG SSANGSIOS-KIYEOK"),
  (0xD7ED, "HANGUL JONGSEONG SSANGSIOS-TIKEUT"),
  (0xD7EE, "HANGUL JONGSEONG SIOS-PANSIOS"),
  (0xD7EF, "HANGUL JONGSEONG SIOS-CIEUC"),
  (0xD7F0, "HANGUL JONGSEONG SIOS-CHIEUCH"),
  (0xD7F1, "HANGUL JONGSEONG SIOS-THIEUTH"),
  (0xD7F2, "HANGUL JONGSEONG SIOS-HIEUH"),
  (0xD7F3, "HANGUL JONGSEONG PANSIOS-PIEUP"),
  (0xD7F4, "HANGUL JONGSEONG PANSIOS-KAPYEOUNPIEUP"),
  (0xD7F5, "HANGUL JONGSEONG YESIEUNG-MIEUM"),
  (0xD7F6, "HANGUL JONGSEONG YESIEUNG-HIEUH"),
  (0xD7F7, "HANGUL JONGSEONG CIEUC-PIEUP"),
  (0xD7F8, "HANGUL JONGSEONG CIEUC-SSANGPIEUP"),
  (0xD7F9, "HANGUL JONGSEONG SSANGCIEUC"),
  (0xD7FA, "HANGUL JONGSEONG PHIEUPH-SIOS"),
  (0xD7FB, "HANGUL JONGSEONG PHIEUPH-THIEUTH")]

/-- The full UCD name table: the concatenation of the ten chunks above.
It is stated in chunks so that each kernel-checked sweep over the table
below stays small. -/
def ucdNames : List (Nat × String) :=
  ucdNamesChunk1 ++ ucdNamesChunk2 ++ ucdNamesChunk3 ++ ucdNamesChunk4 ++
  ucdNamesChunk5 ++ ucdNamesChunk6 ++ ucdNamesChunk7 ++ ucdNamesChunk8 ++
  ucdNamesChunk9 ++ ucdNamesChunk10

/-- Unicode canonical/compatibility decomposition strings (field 5 of
UnicodeData.txt) for the same blocks: exactly the 94 HCJ letters carry a
"compat"-tagged single Jamo target; every other codepoint there has none. -/
def ucdDecompositions : List (Nat × String) := [
  (0x3131, "<compat> 1100"),
  (0x3132, "<compat> 1101"),
  (0x3133, "<compat> 11AA"),
  (0x3134, "<compat> 1102"),
  (0x3135, "<compat> 11AC"),
  (0x3136, "<compat> 11AD"),
  (0x3137, "<compat> 1103"),
  (0x3138, "<compat> 1104"),
  (0x3139, "<compat> 1105"),
  (0x313A, "<compat> 11B0"),
  (0x313B, "<compat> 11B1"),
  (0x313C, "<compat> 11B2"),
  (0x313D, "<compat> 11B3"),
  (0x313E, "<compat> 11B4"),
  (0x313F, "<compat> 11B5"),
  (0x3140, "<compat> 111A"),
  (0x3141, "<compat> 1106"),
  (0x3142, "<compat> 1107"),
  (0x3143, "<compat> 1108"),
  (0x3144, "<compat> 1121"),
  (0x3145, "<compat> 1109"),
  (0x3146, "<compat> 110A"),
  (0x3147, "<compat> 110B"),
  (0x3148, "<compat> 110C"),
  (0x3149, "<compat> 110D"),
  (0x314A, "<compat> 110E"),
  (0x314B, "<compat> 110F"),
  (0x314C, "<compat> 1110"),
  (0x314D, "<compat> 1111"),
  (0x314E, "<compat> 1112"),
  (0x314F, "<compat> 1161"),
  (0x3150, "<compat> 1162"),
  (0x3151, "<compat> 1163"),
  (0x3152, "<compat> 1164"),
  (0x3153, "<compat> 1165"),
  (0x3154, "<compat> 1166"),
  (0x3155, "<compat> 1167"),
  (0x3156, "<compat> 1168"),
  (0x3157, "<compat> 1169"),
  (0x3158, "<compat> 116A"),
  (0x3159, "<compat> 116B"),
  (0x315A, "<compat> 116C"),
  (0x315B, "<compat> 116D"),
  (0x315C, "<compat> 116E"),
  (0x315D, "<compat> 116F"),
  (0x315E, "<compat> 1170"),
  (0x315F, "<compat> 1171"),
  (0x3160, "<compat> 1172"),
  (0x3161, "<compat> 1173"),
  (0x3162, "<compat> 1174"),
  (0x3163, "<compat> 1175"),
  (0x3164, "<compat> 1160"),
  (0x3165, "<compat> 1114"),
  (0x3166, "<compat> 1115"),
  (0x3167, "<compat> 11C7"),
  (0x3168, "<compat> 11C8"),
  (0x3169, "<compat> 11CC"),
  (0x316A, "<compat> 11CE"),
  (0x316B, "<compat> 11D3"),
  (0x316C, "<compat> 11D7"),
  (0x316D, "<compat> 11D9"),
  (0x316E, "<compat> 111C"),
  (0x316F, "<compat> 11DD"),
  (0x3170, "<compat> 11DF"),
  (0x3171, "<compat> 111D"),
  (0x3172, "<compat> 111E"),
  (0x3173, "<compat> 1120"),
  (0x3174, "<compat> 1122"),
  (0x3175, "<compat> 1123"),
  (0x3176, "<compat> 1127"),
  (0x3177, "<compat> 1129"),
  (0x3178, "<compat> 112B"),
  (0x3179, "<compat> 112C"),
  (0x317A, "<compat> 112D"),
  (0x317B, "<compat> 112E"),
  (0x317C, "<compat> 112F"),
  (0x317D, "<compat> 1132"),
  (0x317E, "<compat> 1136"),
  (0x317F, "<compat> 1140"),
  (0x3180, "<compat> 1147"),
  (0x3181, "<compat> 114C"),
  (0x3182, "<compat> 11F1"),
  (0x3183, "<compat> 11F2"),
  (0x3184, "<compat> 1157"),
  (0x3185, "<compat> 1158"),
  (0x3186, "<compat> 1159"),
  (0x3187, "<compat> 1184"),
  (0x3188, "<compat> 1185"),
  (0x3189, "<compat> 1188"),
  (0x318A, "<compat> 1191"),
  (0x318B, "<compat> 1192"),
  (0x318C, "<compat> 1194"),
  (0x318D, "<compat> 119E"),
  (0x318E, "<compat> 11A1")
]

/-- `unicodedata.name` (via the source's `_get_unicode_name`): the canonical
name of a one-character string, `ValueError` if it has none. The embedded
table covers exactly the blocks `is_jamo` accepts plus U+3164; every call the
theorems exercise is guarded by `is_jamo` or applied to HCJ/Jamo characters,
so the restriction to these blocks is faithful. -/
def unicodedata_name (char : String) : Except PyErr String := do
  let cp ← pyOrd char
  match ucdNames.find? (fun p => p.1 == cp) with
  | some p => pure p.2
  | none => .error .valueError

/-- `unicodedata.lookup`: resolve a canonical name back to its (one-character)
string, `KeyError` if no character has that name. Same domain restriction as
`unicodedata_name`; the names looked up by the library are always of the form
"HANGUL (LETTER|CHOSEONG|JUNGSEONG|JONGSEONG) X", which exist only inside the
embedded blocks. -/
def unicodedata_lookup (name : String) : Except PyErr String :=
  match ucdNames.find? (fun p => p.2 == name) with
  | some p => .ok (chr p.1)
  | none => .error .keyError

/-- `unicodedata.decomposition`: the decomposition string of a character
(empty when there is none, which is also what Python returns for unassigned
codepoints). -/
def unicodedata_decomposition (char : String) : Except PyErr String := do
  let cp ← pyOrd char
  pure (((ucdDecompositions.find? (fun p => p.1 == cp)).map (fun p => p.2)).getD "")

/-- A regex word character (`\w`) as matched by `re` on these ASCII names. -/
def isWordChar (c : Char) : Bool := c.isAlphanum || c == '_'

/-- Model of `re.sub("(?<=HANGUL )(\\w+)", repl, ·)` on a character list:
replace every maximal `\w+` run immediately preceded by "HANGUL " by `repl`.
(After a replacement the scan resumes after the replaced run; the names this
is applied to contain "HANGUL " exactly once, so overlap subtleties of the
zero-width lookbehind never arise.) -/
def reSubAux (repl : List Char) : Nat → List Char → List Char
  | 0, cs => cs
  | _ + 1, [] => []
  | fuel + 1, c :: rest =>
    if "HANGUL ".data.isPrefixOf (c :: rest) ∧
       ((c :: rest).drop 7).takeWhile isWordChar ≠ [] then
      "HANGUL ".data ++ repl ++
        reSubAux repl fuel
          (((c :: rest).drop 7).drop
            ((((c :: rest).drop 7).takeWhile isWordChar).length))
    else
      c :: reSubAux repl fuel rest

/-- String form of `reSubAux`. Every step of the scan consumes at least one
character, so fuel `length + 1` never runs out. -/
def pyReSubHangul (repl : String) (s : String) : String :=
  String.mk (reSubAux repl.data (s.data.length + 1) s.data)

/-- Python's `str.split()` (split on runs of whitespace, dropping empty
pieces); the names split here contain single spaces only. -/
def wordsAux : List Char → List Char → List String
  | [], [] => []
  | [], cur => [String.mk cur.reverse]
  | ' ' :: rest, [] => wordsAux rest []
  | ' ' :: rest, cur => String.mk cur.reverse :: wordsAux rest []
  | c :: rest, cur => wordsAux rest (c :: cur)

/-- `s.split()` for the single-space-separated strings used here. -/
def pySplit (s : String) : List String := wordsAux s.data []

/-- Python's substring containment `needle in hay`. -/
def strIn (needle hay : String) : Bool :=
  (List.range (hay.data.length + 1)).any
    (fun i => needle.data.isPrefixOf (hay.data.drop i))

/-- `str(hex(n))[2:].upper()`: uppercase hex digits of a codepoint. -/
def pyUpperHex (n : Nat) : String :=
  String.mk ((Nat.toDigits 16 n).map Char.toUpper)

/-- Python `hex(n)`: `0x` followed by lowercase hex digits. -/
def pyHex (n : Nat) : String :=
  "0x" ++ String.mk (Nat.toDigits 16 n)

/-- Value of a hex digit (the strings parsed here are valid hex tokens from
the embedded tables, so the junk case never fires). -/
def hexDigitVal (c : Char) : Nat :=
  if c.isDigit then c.toNat - 48
  else if 'A' ≤ c ∧ c ≤ 'F' then c.toNat - 55
  else if 'a' ≤ c ∧ c ≤ 'f' then c.toNat - 87
  else 0

/-- Python `int(s, 16)`. -/
def parseHex (s : String) : Nat :=
  s.data.foldl (fun a c => 16 * a + hexDigitVal c) 0

/-- Raising `InvalidJamoError(message, jamo)`: the constructor itself
computes `hex(ord(jamo))` for its diagnostic, so it raises `TypeError` first
when `jamo` is not a single character (which never happens on the guarded
paths below). -/
def raiseInvalidJamo (msg : String) (jamo : String) : Except PyErr α := do
  let o ← pyOrd jamo
  .error (.invalidJamo (msg ++ " U+" ++ String.mk (Nat.toDigits 16 o)))

/-- `_jamo_char_to_hcj` from the source: rewrite the positional token of the
character's name to "LETTER" and resolve; echo the character on `KeyError`
or when it is not jamo. -/
def _jamo_char_to_hcj (char : String) : Except PyErr String := do
  let ij ← is_jamo char
  if ij then do
    let name ← unicodedata_name char
    let hcj_name := pyReSubHangul "LETTER" name
    match unicodedata_lookup hcj_name with
    | .ok r => pure r
    | .error .keyError => pure char
    | .error e => .error e
  else
    pure char

/-- `jamo_to_hcj` from the source: map `_jamo_char_to_hcj` over the
characters of the input (the generator, represented as the list of its
elements). -/
def jamo_to_hcj (data : String) : Except PyErr (List String) :=
  data.data.mapM (fun c => _jamo_char_to_hcj (String.singleton c))

/-- `j2hcj` from the source: `''.join(jamo_to_hcj(jamo))`. -/
def j2hcj (jamo : String) : Except PyErr String := do
  let l ← jamo_to_hcj jamo
  pure (String.join l)

/-- `hcj_to_jamo` from the source: rewrite the name token to the positional
class requested and resolve; echo the input back on `KeyError`. -/
def hcj_to_jamo (hcj_char : String) (position : String) : Except PyErr String := do
  let jamo_class ←
    if position == "lead" then pure "CHOSEONG"
    else if position == "vowel" then pure "JUNGSEONG"
    else if position == "tail" then pure "JONGSEONG"
    else raiseInvalidJamo "No mapping from input to jamo." hcj_char
  let name ← unicodedata_name hcj_char
  let jamo_name := pyReSubHangul jamo_class name
  match unicodedata_lookup jamo_name with
  | .ok r => pure r
  | .error .keyError => pure hcj_char
  | .error e => .error e

/-- `JAMO_LEADS` from the source: `range(0x1100, 0x115F)` as characters. -/
def JAMO_LEADS : List String := (List.range' 0x1100 0x5F).map chr

/-- `JAMO_VOWELS` from the source: `range(0x1161, 0x11A8)` as characters. -/
def JAMO_VOWELS : List String := (List.range' 0x1161 0x47).map chr

/-- `JAMO_TAILS` from the source: `range(0x11A8, 0x1200)` as characters. -/
def JAMO_TAILS : List String := (List.range' 0x11A8 0x58).map chr

/-- `get_jamo_class` from the source, with Python's evaluation order: the
HCJ-vowel range test computes `ord(jamo)` only after the lead and vowel list
memberships fail. -/
def get_jamo_class (jamo : String) : Except PyErr String :=
  if JAMO_LEADS.contains jamo || jamo == chr 0x115F then pure "lead"
  else if JAMO_VOWELS.contains jamo || jamo == chr 0x1160 then pure "vowel"
  else do
    let o ← pyOrd jamo
    if 0x314F ≤ o ∧ o ≤ 0x3163 then pure "vowel"
    else if JAMO_TAILS.contains jamo then pure "tail"
    else raiseInvalidJamo "Invalid or classless jamo argument." jamo

/-- `is_jamo_compound` from the source. Note the explicit `len(character)
!= 1 → False` early return (the code deliberately returns a boolean instead
of raising there). -/
def is_jamo_compound (character : String) : Except PyErr Bool := do
  if pyLen character ≠ 1 then pure false
  else do
    let ij ← is_jamo character
    if ij then do
      let character_name ← unicodedata_name character
      if strIn "-" character_name then pure true
      else if strIn "SSANG" character_name then pure true
      else if strIn "KAPYEOUN" character_name then pure true
      else if strIn "W" character_name then pure true
      else if strIn "YI" character_name || strIn "OE" character_name then pure true
      else if strIn "ARAEAE" character_name then pure true
      else pure false
    else pure false

/-- A Python value that is either a string (echoed input) or a tuple of
strings, as returned by `_hangul_char_to_jamo`. -/
inductive StrOrTup where
  | str (s : String)
  | tup (l : List String)
  deriving DecidableEq, Repr

/-- `_hangul_char_to_jamo` from the source: arithmetic decomposition of a
Hangul syllable into its lead/vowel(/tail) jamo characters; non-Hangul input
is echoed back. -/
def _hangul_char_to_jamo (syllable : String) : Except PyErr StrOrTup := do
  let ih ← is_hangul_char syllable
  if ih then do
    let o ← pyOrd syllable
    let rem := o - 44032
    let tail := rem % 28
    let vowel := 1 + ((rem - tail) % 588) / 28
    let lead := 1 + rem / 588
    if tail ≠ 0 then
      pure (.tup [chr (lead + 0x10FF), chr (vowel + 0x1160), chr (tail + 0x11A7)])
    else
      pure (.tup [chr (lead + 0x10FF), chr (vowel + 0x1160)])
  else
    pure (.str syllable)

/-- Python `chr` on a possibly negative value: `ValueError` outside the
codepoint range (the guarded caller below never reaches that case). -/
def pyChr (i : Int) : Except PyErr String :=
  if 0 ≤ i ∧ i ≤ 0x10FFFF then .ok (chr i.toNat) else .error .valueError

/-- `_jamo_to_hangul_char` from the source: inverse arithmetic. `tail` is
`None` (`0` in the Python default) or a character. -/
def _jamo_to_hangul_char (lead vowel : String) (tail : Option String) :
    Except PyErr String := do
  let lo ← pyOrd lead
  let vo ← pyOrd vowel
  let l : Int := (lo : Int) - 0x10FF
  let v : Int := (vo : Int) - 0x1160
  let t : Int ←
    match tail with
    | some ts => do
      let tlo ← pyOrd ts
      pure ((tlo : Int) - 0x11A7)
    | none => pure 0
  pyChr (t + (v - 1) * 28 + (l - 1) * 588 + 44032)

/-- The tail-argument normalization at the top of `jamo_to_hangul`
(`if not tail or ord(tail) == 0: tail = None; elif is_hcj(tail): tail =
hcj_to_jamo(tail, "tail")`). -/
def jamoToHangulNormTail (tail : String) : Except PyErr (Option String) := do
  if tail = "" then pure none
  else do
    let o ← pyOrd tail
    if o == 0 then pure none
    else do
      let h ← is_hcj tail
      if h then do
        let t ← hcj_to_jamo tail "tail"
        pure (some t)
      else pure (some tail)

/-- The validity test of `jamo_to_hangul`: Python's short-circuit
`(is_jamo(lead) and get_jamo_class(lead) == "lead") and ... ` chain, with
each later test evaluated only when the earlier ones pass. -/
def jamoToHangulValid (lead vowel : String) (tailOpt : Option String) :
    Except PyErr Bool := do
  let il ← is_jamo lead
  if il then do
    let cl ← get_jamo_class lead
    if cl == "lead" then do
      let iv ← is_jamo vowel
      if iv then do
        let cv ← get_jamo_class vowel
        if cv == "vowel" then
          match tailOpt with
          | none => pure true
          | some t => do
            let it ← is_jamo t
            if it then do
              let ct ← get_jamo_class t
              pure (ct == "tail")
            else pure false
        else pure false
      else pure false
    else pure false
  else pure false

/-- `jamo_to_hangul` from the source (`tail` defaults to `''` there):
resolve HCJ inputs into positional jamo via `hcj_to_jamo`, normalize the
tail, validate the classes, synthesize and check the result. -/
def jamo_to_hangul (lead vowel tail : String) : Except PyErr String := do
  let lead ← hcj_to_jamo lead "lead"
  let vowel ← hcj_to_jamo vowel "vowel"
  let tailOpt ← jamoToHangulNormTail tail
  let cond ← jamoToHangulValid lead vowel tailOpt
  if cond then do
    let result ← _jamo_to_hangul_char lead vowel tailOpt
    let ihr ← is_hangul_char result
    if ihr then
      pure result
    else
      raiseInvalidJamo "Could not synthesize characters to Hangul." (chr 0)
  else
    raiseInvalidJamo "Could not synthesize characters to Hangul." (chr 0)


/-- Modelled from the spec: the auxiliary Hangul decomposition table the
package ships as `data/U+11xx.json` (missing from `src/`), "an auxiliary
decomposition table for compounds lacking a standard Unicode decomposition",
keyed by uppercase hex codepoint, sourced from Auxiliary Hangul
Decompositions 5.0.0d3. It decomposes each compound positional jamo into its
two constituents of the same positional class; basic (non-compound) letters
have no entry. Listed are the compounds reachable from the claims below: the
U+11xx targets of the HCJ compatibility decompositions of the modern
compound dictionary. -/
def hex_components_dictionary : List (String × String) := [
  ("1101", "1100 1100"),
  ("1104", "1103 1103"),
  ("1108", "1107 1107"),
  ("110A", "1109 1109"),
  ("110D", "110C 110C"),
  ("111A", "1105 1112"),
  ("1121", "1107 1109"),
  ("116A", "1169 1161"),
  ("116B", "1169 1162"),
  ("116C", "1169 1175"),
  ("116F", "116E 1165"),
  ("1170", "116E 1166"),
  ("1171", "116E 1175"),
  ("1174", "1173 1175"),
  ("11AA", "11A8 11BA"),
  ("11AC", "11AB 11BD"),
  ("11AD", "11AB 11C2"),
  ("11B0", "11AF 11A8"),
  ("11B1", "11AF 11B7"),
  ("11B2", "11AF 11B8"),
  ("11B3", "11AF 11BA"),
  ("11B4", "11AF 11C0"),
  ("11B5", "11AF 11C1"),
  ("11B6", "11AF 11C2"),
  ("11B9", "11B8 11BA")]

/-- `_decompose_jamo_to_hex` from the source: the canonical Unicode
decomposition string, or the auxiliary table entry when that is empty, or the
empty string. -/
def _decompose_jamo_to_hex (jamo : String) : Except PyErr String := do
  let ij ← is_jamo jamo
  if !ij then
    raiseInvalidJamo "Invalid jamo argument." jamo
  else do
    let o ← pyOrd jamo
    let codepoint := pyUpperHex o
    let components_string ← unicodedata_decomposition jamo
    if components_string == "" then
      pure (((hex_components_dictionary.find? (fun p => p.1 == codepoint)).map
        (fun p => p.2)).getD "")
    else
      pure components_string

/-- `_decompose_jamo_to_hex_recursive` from the source, with explicit fuel
for the (in practice depth-two) recursion. Bracketed compatibility markers
are kept verbatim; hex components are recursed into until irreducible. -/
def _decompose_jamo_to_hex_recursive (fuel : Nat) (jamo : String) :
    Except PyErr String :=
  match fuel with
  | 0 => .error .fuel
  | fuel + 1 => do
    let base ← _decompose_jamo_to_hex jamo
    (pySplit base).foldlM
      (fun decomposition component => do
        let decomposition :=
          if decomposition.length > 0 then decomposition ++ " " else decomposition
        if component.data.head? == some '<' then
          pure (decomposition ++ component)
        else do
          let intermediate ←
            _decompose_jamo_to_hex_recursive fuel (chr (parseHex component))
          if intermediate == "" then
            pure (decomposition ++ component)
          else
            pure (decomposition ++ intermediate))
      ""

/-- The result of `decompose_jamo`: the echoed/collapsed string, a tuple, or
(from the SSANG/hyphen name-splitting fallback) a Python list. -/
inductive PyRes where
  | str (s : String)
  | tup (l : List String)
  | lst (l : List String)
  deriving DecidableEq, Repr

/-- The strip test of `decompose_jamo`'s non-verbose filtering pass. Note
the source compares `hex(ord(component))`, which is lowercase, against the
literal `'0x115F'` with an uppercase F, so the lead filler is in fact never
stripped; the embedding preserves that comparison verbatim. -/
def stripCond (component : String) : Except PyErr Bool := do
  if pyLen component ≠ 1 then
    pure true
  else do
    let ij ← is_jamo component
    if !ij then
      pure true
    else do
      let o ← pyOrd component
      pure (pyHex o == "0x1160" || pyHex o == "0x115F")

/-- One pass of the SSANG/hyphen expansion loop in `decompose_jamo`: act on
the first form containing a hyphen or "SSANG" (hyphen action first, as the
source tests the hyphen before "SSANG" on each element); `none` when no
element carries a marker (the source's `while` would then spin forever,
which the fuelled caller maps to `PyErr.fuel`). -/
def formsStep (forms : List String) : Option (List String) :=
  match forms.find? (fun p => strIn "-" p || strIn "SSANG" p) with
  | none => none
  | some part =>
    if strIn "-" part then
      some (forms.erase part ++ part.splitOn "-")
    else
      some (forms.erase part ++ [part.replace "SSANG" "", part.replace "SSANG" ""])

/-- The SSANG/hyphen expansion loop of `decompose_jamo`, with fuel. -/
def expandForms (fuel : Nat) (forms : List String) : Except PyErr (List String) :=
  match fuel with
  | 0 => .error .fuel
  | fuel + 1 =>
    if strIn "SSANG" (String.join forms) || strIn "-" (String.join forms) then
      match formsStep forms with
      | some forms2 => expandForms fuel forms2
      | none => .error .fuel
    else
      pure forms


/-- The strict-independent part of `decompose_jamo` (everything before the
source's final `if strict:` check, which is the only place `strict` is
read): recursive hex decomposition, positional-class correction,
non-verbose filtering, collapse, and the SSANG/hyphen name-splitting
fallback. -/
def decompose_jamo_core (jamo : String) (verbose : Bool) : Except PyErr PyRes := do
  let ij ← is_jamo jamo
  if !ij then
    raiseInvalidJamo "Invalid jamo argument." jamo
  else do
    let hex_components ← _decompose_jamo_to_hex_recursive 100 jamo
    let character_components ← (pySplit hex_components).mapM (fun h => do
      if h.data.head? == some '<' then
        pure h
      else do
        let tmp_jamo := chr (parseHex h)
        let itj ← is_jamo tmp_jamo
        if !itj then
          raiseInvalidJamo "Invalid jamo from lookup in _decompose_jamo_to_hex()." jamo
        else
          pure tmp_jamo)
    let nm ← unicodedata_name jamo
    let jamo_class ← match (pySplit nm).get? 1 with
      | some w => pure w
      | none => .error .indexError
    let character_components ← character_components.mapM (fun component => do
      if component.data.head? ≠ some '<' then do
        let cn ← unicodedata_name component
        let cw ← match (pySplit cn).get? 1 with
          | some w => pure w
          | none => .error .indexError
        if cw ≠ jamo_class then
          match unicodedata_lookup
              (String.intercalate " " ((pySplit cn).set 1 jamo_class)) with
          | .ok test_component => pure test_component
          | .error .keyError => pure component
          | .error e => .error e
        else
          pure component
      else
        pure component)
    let character_components ←
      if !verbose then
        character_components.foldrM
          (fun c acc => do
            let b ← stripCond c
            pure (if b then acc else c :: acc))
          []
      else
        pure character_components
    let collapsed : PyRes :=
      match character_components with
      | [] => .str jamo
      | [x] => .str x
      | l => .tup l
    let result ←
      if collapsed == .str jamo then do
        let jamo_name ← unicodedata_name jamo
        if strIn "SSANG" jamo_name ||
           (strIn "-" jamo_name && jamo_name ≠ "HANGUL SYLLABLE SSANG") then do
          if (pySplit jamo_name).length ≠ 3 then
            .error .assertionError
          else do
            let atoms := pySplit jamo_name
            let prefixStr := String.intercalate " " (atoms.take 2)
            let forms ← expandForms 1000 [(atoms.getLast?).getD ""]
            let comps ← forms.mapM
              (fun form => unicodedata_lookup (prefixStr ++ " " ++ form))
            pure (PyRes.lst comps)
        else
          pure collapsed
      else
        pure collapsed
    pure result

/-- `decompose_jamo` from the source: the core computation above followed by
the `if strict:` check (`InvalidJamoError` when the result still equals the
input). -/
def decompose_jamo (jamo : String) (verbose strict : Bool) : Except PyErr PyRes := do
  let result ← decompose_jamo_core jamo verbose
  if strict ∧ result == .str jamo then
    raiseInvalidJamo "No decomposition found for jamo." jamo
  else
    pure result

/-- Modelled from the spec: `JAMO_COMPOUNDS_MODERN_DICTIONARY`, the "modern
compound dictionary (a fixed table of ~23 entries covering double
consonants, consonant clusters, and diphthongs)" mapping each modern
compound to its ordered pair of constituent basic letters; it is referenced
by `compose_jamo` in `src/jamo/jamo.py` but defined in package code not
present under `src/`. The spec fixes the entry ㄲ → (ㄱ, ㄱ); the remaining
entries are the standard modern doubles, tail clusters and diphthongs. -/
def JAMO_COMPOUNDS_MODERN_DICTIONARY : List (String × List String) := [
  ("ㄲ", ["ㄱ", "ㄱ"]),
  ("ㄳ", ["ㄱ", "ㅅ"]),
  ("ㄵ", ["ㄴ", "ㅈ"]),
  ("ㄶ", ["ㄴ", "ㅎ"]),
  ("ㄸ", ["ㄷ", "ㄷ"]),
  ("ㄺ", ["ㄹ", "ㄱ"]),
  ("ㄻ", ["ㄹ", "ㅁ"]),
  ("ㄼ", ["ㄹ", "ㅂ"]),
  ("ㄽ", ["ㄹ", "ㅅ"]),
  ("ㄾ", ["ㄹ", "ㅌ"]),
  ("ㄿ", ["ㄹ", "ㅍ"]),
  ("ㅀ", ["ㄹ", "ㅎ"]),
  ("ㅃ", ["ㅂ", "ㅂ"]),
  ("ㅄ", ["ㅂ", "ㅅ"]),
  ("ㅆ", ["ㅅ", "ㅅ"]),
  ("ㅉ", ["ㅈ", "ㅈ"]),
  ("ㅘ", ["ㅗ", "ㅏ"]),
  ("ㅙ", ["ㅗ", "ㅐ"]),
  ("ㅚ", ["ㅗ", "ㅣ"]),
  ("ㅝ", ["ㅜ", "ㅓ"]),
  ("ㅞ", ["ㅜ", "ㅔ"]),
  ("ㅟ", ["ㅜ", "ㅣ"]),
  ("ㅢ", ["ㅡ", "ㅣ"])]

/-- The dictionary scan of `compose_jamo`: first entry whose constituent
pair, reduced to HCJ, equals the supplied (HCJ-reduced) parts and whose
compound is jamo (`is_jamo` evaluated only after the pair matches, as
Python's `and` does). -/
def findCompound (hcparts : List String) :
    List (String × List String) → Except PyErr (Option String)
  | [] => pure none
  | (compound, dict_parts) :: rest => do
    let hcdict_parts ← dict_parts.mapM j2hcj
    if hcparts == hcdict_parts then do
      let ij ← is_jamo compound
      if ij then
        pure (some compound)
      else
        findCompound hcparts rest
    else
      findCompound hcparts rest

/-- `compose_jamo(*parts)` from the source: the per-argument type/arity
check (each argument a single-character string and 2-3 arguments in total,
`TypeError` otherwise), then the modern-dictionary scan on the HCJ-reduced
parts, and `InvalidJamoError` with a codepoint listing when nothing
matches. -/
def compose_jamo (parts : List String) : Except PyErr String := do
  let _ ← parts.mapM (fun p =>
    if ¬(pyLen p = 1 ∧ 2 ≤ parts.length ∧ parts.length ≤ 3) then
      (.error (.typeError "compose_jamo() expected 2-3 single characters") :
        Except PyErr Unit)
    else
      pure ())
  let hcparts ← parts.mapM j2hcj
  match ← findCompound hcparts JAMO_COMPOUNDS_MODERN_DICTIONARY with
  | some compound => pure compound
  | none => do
    let pieces ← parts.mapM (fun p => do
      let o ← pyOrd p
      pure (p ++ "(U+" ++ String.mk (Nat.toDigits 16 o) ++ ")"))
    .error (.invalidJamo
      ("Could not synthesize characters to compound: " ++
        String.intercalate ", " pieces))

/-! ### Helper lemmas -/

/-- Bool-level check that a computation returns exactly `v` (used to turn
kernel-decided sweeps into equations). -/
def exEq [BEq α] : Except PyErr α → α → Bool
  | .ok a, b => a == b
  | .error _, _ => false

theorem eq_ok_of_exEq [BEq α] [LawfulBEq α] {x : Except PyErr α} {v : α}
    (h : exEq x v = true) : x = .ok v := by
  cases x with
  | ok a => simp only [exEq, beq_iff_eq] at h; rw [h]
  | error e => simp [exEq] at h

/-- Bool-level check that a computation fails with `InvalidJamoError`. -/
def isInvalidJamo : Except PyErr α → Bool
  | .error (.invalidJamo _) => true
  | _ => false

theorem invalidJamo_of_check {x : Except PyErr α} (h : isInvalidJamo x = true) :
    ∃ m, x = .error (.invalidJamo m) := by
  match x with
  | .error (.invalidJamo m) => exact ⟨m, rfl⟩
  | .ok _ | .error (.typeError _) | .error .keyError | .error .valueError
  | .error .indexError | .error .assertionError | .error .fuel =>
    simp [isInvalidJamo] at h

theorem pyOrd_singleton (c : Char) : pyOrd (String.singleton c) = .ok c.toNat := rfl

theorem toNat_ofNat_eq {n : Nat} (h : n.isValidChar) : (Char.ofNat n).toNat = n := by
  simp [Char.ofNat, h, Char.toNat, Char.ofNatAux, UInt32.toNat, UInt32.ofNat']

theorem pyOrd_chr {n : Nat} (h : n < 0xD800) : pyOrd (chr n) = .ok n := by
  rw [chr, pyOrd_singleton, toNat_ofNat_eq (Or.inl h)]

theorem ofNat_toNat_self (c : Char) : Char.ofNat c.toNat = c := Char.ofNat_toNat c

theorem singleton_eq_chr (c : Char) : String.singleton c = chr c.toNat := by
  rw [chr, ofNat_toNat_self]

theorem bind_ok (a : α) (f : α → Except PyErr β) : (Except.ok a >>= f) = f a := rfl

theorem pure_eq_ok (a : α) : (pure a : Except PyErr α) = .ok a := rfl

theorem pure_bind_ok (a : α) (f : α → Except PyErr β) :
    ((pure a : Except PyErr α) >>= f) = f a := rfl

theorem is_hangul_char_singleton (c : Char) :
    is_hangul_char (String.singleton c) =
      .ok (decide (0xAC00 ≤ c.toNat ∧ c.toNat ≤ 0xD7A3)) := rfl

theorem is_hangul_char_chr {n : Nat} (h : n < 0xD800) :
    is_hangul_char (chr n) = .ok (decide (0xAC00 ≤ n ∧ n ≤ 0xD7A3)) := by
  rw [chr, is_hangul_char_singleton, toNat_ofNat_eq (Or.inl h)]

/-! ### C4: the per-character syllable decomposition formula -/

/-- C4: for every Hangul syllable codepoint `cp ∈ [0xAC00, 0xD7A3]`, with
`rem = cp - 44032`, `tail_index = rem % 28`,
`vowel_index = 1 + ((rem - tail_index) % 588) / 28` and
`lead_index = 1 + rem / 588`, the per-character syllable decomposition
`_hangul_char_to_jamo` returns the characters at `lead_index + 0x10FF` and
`vowel_index + 0x1160`, followed by `tail_index + 0x11A7` exactly when
`tail_index` is nonzero; in particular it maps '한' to ('ᄒ','ᅡ','ᆫ'). -/
theorem C4_decompose_syllable_formula :
    (∀ cp : Nat, 0xAC00 ≤ cp → cp ≤ 0xD7A3 →
      _hangul_char_to_jamo (chr cp) =
        .ok (.tup
          (if (cp - 44032) % 28 ≠ 0 then
            [chr (1 + (cp - 44032) / 588 + 0x10FF),
             chr (1 + (((cp - 44032) - (cp - 44032) % 28) % 588) / 28 + 0x1160),
             chr ((cp - 44032) % 28 + 0x11A7)]
          else
            [chr (1 + (cp - 44032) / 588 + 0x10FF),
             chr (1 + (((cp - 44032) - (cp - 44032) % 28) % 588) / 28 + 0x1160)]))) ∧
    _hangul_char_to_jamo "한" = .ok (.tup ["ᄒ", "ᅡ", "ᆫ"]) := by
  constructor
  · intro cp h1 h2
    have hv : cp < 0xD800 := by omega
    have hrange : decide (0xAC00 ≤ cp ∧ cp ≤ 0xD7A3) = true := by
      simp [h1, h2]
    unfold _hangul_char_to_jamo
    rw [is_hangul_char_chr hv, hrange, bind_ok, if_pos rfl, pyOrd_chr hv, bind_ok]
    by_cases ht : (cp - 44032) % 28 = 0
    · simp [ht, pure_eq_ok]
    · simp [ht, pure_eq_ok]
  · rfl

/-- Witness for C4 at the syllable '한' (U+D55C). -/
theorem C4_decompose_syllable_formula_witness :
    (0xAC00 ≤ 0xD55C ∧ 0xD55C ≤ 0xD7A3) ∧
    _hangul_char_to_jamo (chr 0xD55C) =
      .ok (.tup
        (if (0xD55C - 44032) % 28 ≠ 0 then
          [chr (1 + (0xD55C - 44032) / 588 + 0x10FF),
           chr (1 + (((0xD55C - 44032) - (0xD55C - 44032) % 28) % 588) / 28 + 0x1160),
           chr ((0xD55C - 44032) % 28 + 0x11A7)]
        else
          [chr (1 + (0xD55C - 44032) / 588 + 0x10FF),
           chr (1 + (((0xD55C - 44032) - (0xD55C - 44032) % 28) % 588) / 28 + 0x1160)])) :=
  ⟨by decide, C4_decompose_syllable_formula.1 0xD55C (by decide) (by decide)⟩

theorem pyOrd_not_single {s : String} (h : pyLen s ≠ 1) :
    pyOrd s = .error (.typeError "ord() expected a character") := by
  unfold pyLen at h
  unfold pyOrd
  match hs : s.data with
  | [] => rfl
  | [c] => rw [hs] at h; simp at h
  | a :: b :: t => rfl

theorem bind_err (e : PyErr) (f : α → Except PyErr β) :
    (Except.error e >>= f : Except PyErr β) = .error e := rfl

/-! ### C8: behaviour of the classifiers on non-single-character input -/

/-- C8 counterexample: the claim says every classifier predicate, including
`is_jamo_compound`, fails by raising a length/type error on input that is
not exactly one character and never returns a boolean for such input; but
`is_jamo_compound` explicitly returns the boolean `False` for the
two-character string "ab" (the source has `if len(character) != 1: return
False` with the raising alternative left in a comment). -/
theorem C8_counterexample : is_jamo_compound "ab" = .ok false := rfl

/-- C8 (amended): the single-character classifier predicates
`is_hangul_char`, `is_jamo`, `is_jamo_modern`, `is_hcj` and `is_hcj_modern`
raise a type error on any input that is not exactly one character;
`is_jamo_compound` is the exception and returns the boolean `False` for
such input instead of raising. -/
theorem C8_classifier_arity :
    ∀ s : String, pyLen s ≠ 1 →
      (∃ m, is_hangul_char s = .error (.typeError m)) ∧
      (∃ m, is_jamo s = .error (.typeError m)) ∧
      (∃ m, is_jamo_modern s = .error (.typeError m)) ∧
      (∃ m, is_hcj s = .error (.typeError m)) ∧
      (∃ m, is_hcj_modern s = .error (.typeError m)) ∧
      is_jamo_compound s = .ok false := by
  intro s h
  refine ⟨⟨"ord() expected a character", ?_⟩, ⟨"ord() expected a character", ?_⟩,
    ⟨"ord() expected a character", ?_⟩, ⟨"ord() expected a character", ?_⟩,
    ⟨"ord() expected a character", ?_⟩, ?_⟩
  · unfold is_hangul_char
    rw [pyOrd_not_single h, bind_err]
  · unfold is_jamo
    rw [pyOrd_not_single h, bind_err]
  · unfold is_jamo_modern
    rw [pyOrd_not_single h, bind_err]
  · unfold is_hcj
    rw [pyOrd_not_single h, bind_err]
  · unfold is_hcj_modern
    rw [pyOrd_not_single h, bind_err]
  · unfold is_jamo_compound
    rw [if_pos h, pure_eq_ok]

/-- Witness for C8 at the two-character string "ab". -/
theorem C8_classifier_arity_witness :
    pyLen "ab" ≠ 1 ∧
    ((∃ m, is_hangul_char "ab" = .error (.typeError m)) ∧
     (∃ m, is_jamo "ab" = .error (.typeError m)) ∧
     (∃ m, is_jamo_modern "ab" = .error (.typeError m)) ∧
     (∃ m, is_hcj "ab" = .error (.typeError m)) ∧
     (∃ m, is_hcj_modern "ab" = .error (.typeError m)) ∧
     is_jamo_compound "ab" = .ok false) :=
  ⟨by decide, C8_classifier_arity "ab" (by decide)⟩

theorem pyOrd_ok_shape {s : String} {o : Nat} (h : pyOrd s = .ok o) :
    ∃ c : Char, s = String.singleton c ∧ c.toNat = o := by
  match hs : s.data with
  | [] => unfold pyOrd at h; rw [hs] at h; exact absurd h (by simp)
  | [c] =>
    refine ⟨c, ?_, ?_⟩
    · cases s with
      | mk data => cases hs; rfl
    · unfold pyOrd at h; rw [hs] at h
      exact (Except.ok.injEq _ _).mp h
  | a :: b :: t => unfold pyOrd at h; rw [hs] at h; exact absurd h (by simp)

theorem singleton_data (c : Char) : (String.singleton c).data = [c] := rfl

theorem singleton_inj {c d : Char} (h : String.singleton c = String.singleton d) :
    c = d := by
  have hd := congrArg String.data h
  rw [singleton_data, singleton_data] at hd
  exact List.head_eq_of_cons_eq hd

theorem mem_chr_range {s : String} {a len : Nat}
    (h : s ∈ (List.range' a len).map chr) :
    ∃ n, a ≤ n ∧ n < a + len ∧ s = chr n := by
  rcases List.mem_map.mp h with ⟨n, hn, rfl⟩
  rcases List.mem_range'_1.mp hn with ⟨h1, h2⟩
  exact ⟨n, h1, h2, rfl⟩

/-! ### C10: the domain of `get_jamo_class` -/

/-- C10: every character of the extended Jamo blocks `[0xA960, 0xA97C]`,
`[0xD7B0, 0xD7C6]` and `[0xD7CB, 0xD7FB]` satisfies `is_jamo` yet makes
`get_jamo_class` raise `InvalidJamoError`; and whenever `get_jamo_class`
succeeds, the input was a single character either of the U+11xx block
(fillers U+115F and U+1160 included) or an HCJ vowel in
`[0x314F, 0x3163]`. -/
theorem ext_block_sweep :
    ((((List.range' 0xA960 29) ++ List.range' 0xD7B0 23) ++
      List.range' 0xD7CB 49).all (fun cp =>
        exEq (is_jamo (chr cp)) true &&
        isInvalidJamo (get_jamo_class (chr cp)))) = true := by decide

theorem C10_get_jamo_class_domain :
    (∀ cp : Nat,
      ((0xA960 ≤ cp ∧ cp ≤ 0xA97C) ∨ (0xD7B0 ≤ cp ∧ cp ≤ 0xD7C6) ∨
       (0xD7CB ≤ cp ∧ cp ≤ 0xD7FB)) →
      is_jamo (chr cp) = .ok true ∧
      ∃ m, get_jamo_class (chr cp) = .error (.invalidJamo m)) ∧
    (∀ s cls, get_jamo_class s = .ok cls →
      ∃ c : Char, s = String.singleton c ∧
        ((0x1100 ≤ c.toNat ∧ c.toNat ≤ 0x11FF) ∨
         (0x314F ≤ c.toNat ∧ c.toNat ≤ 0x3163))) := by
  constructor
  · have hs := ext_block_sweep
    rw [List.all_eq_true] at hs
    intro cp h
    have hmem : cp ∈ ((List.range' 0xA960 29) ++ List.range' 0xD7B0 23) ++
        List.range' 0xD7CB 49 := by
      simp only [List.mem_append, List.mem_range'_1]
      omega
    have := hs cp hmem
    rw [Bool.and_eq_true] at this
    exact ⟨eq_ok_of_exEq this.1, invalidJamo_of_check this.2⟩
  · intro s cls h
    unfold get_jamo_class at h
    by_cases h1 : (JAMO_LEADS.contains s || s == chr 0x115F) = true
    · rcases Bool.or_eq_true .. |>.mp h1 with hm | he
      · rcases mem_chr_range (List.mem_of_elem_eq_true hm) with ⟨n, hn1, hn2, rfl⟩
        exact ⟨Char.ofNat n, rfl, Or.inl (by rw [toNat_ofNat_eq (Or.inl (by omega))]; omega)⟩
      · rw [eq_of_beq he]
        exact ⟨Char.ofNat 0x115F, rfl, Or.inl (by rw [toNat_ofNat_eq (Or.inl (by omega))]; omega)⟩
    · rw [if_neg h1] at h
      by_cases h2 : (JAMO_VOWELS.contains s || s == chr 0x1160) = true
      · rcases Bool.or_eq_true .. |>.mp h2 with hm | he
        · rcases mem_chr_range (List.mem_of_elem_eq_true hm) with ⟨n, hn1, hn2, rfl⟩
          exact ⟨Char.ofNat n, rfl, Or.inl (by rw [toNat_ofNat_eq (Or.inl (by omega))]; omega)⟩
        · rw [eq_of_beq he]
          exact ⟨Char.ofNat 0x1160, rfl, Or.inl (by rw [toNat_ofNat_eq (Or.inl (by omega))]; omega)⟩
      · rw [if_neg h2] at h
        rcases ho : pyOrd s with o | o
        · rw [ho, bind_err] at h; exact absurd h (by simp)
        rw [ho, bind_ok] at h
        rcases pyOrd_ok_shape ho with ⟨c, rfl, hct⟩
        by_cases h3 : 0x314F ≤ o ∧ o ≤ 0x3163
        · exact ⟨c, rfl, Or.inr (by omega)⟩
        · rw [if_neg h3] at h
          by_cases h4 : JAMO_TAILS.contains (String.singleton c) = true
          · rw [if_pos h4] at h
            rcases mem_chr_range (List.mem_of_elem_eq_true h4) with ⟨n, hn1, hn2, hc⟩
            have hcn : c = Char.ofNat n := singleton_inj hc
            have : c.toNat = n := by
              rw [hcn, toNat_ofNat_eq (Or.inl (by omega))]
            exact ⟨c, rfl, Or.inl (by omega)⟩
          · rw [if_neg h4] at h
            unfold raiseInvalidJamo at h
            rw [pyOrd_singleton, bind_ok] at h
            exact absurd h (by simp)

/-- Witness for C10 at U+A960 (extended lead block) and U+1100. -/
theorem C10_get_jamo_class_domain_witness :
    (is_jamo (chr 0xA960) = .ok true ∧
     ∃ m, get_jamo_class (chr 0xA960) = .error (.invalidJamo m)) ∧
    (∃ c : Char, chr 0x1100 = String.singleton c ∧
      ((0x1100 ≤ c.toNat ∧ c.toNat ≤ 0x11FF) ∨
       (0x314F ≤ c.toNat ∧ c.toNat ≤ 0x3163))) :=
  ⟨C10_get_jamo_class_domain.1 0xA960 (Or.inl ⟨by decide, by decide⟩),
   C10_get_jamo_class_domain.2 (chr 0x1100) "lead" (by rfl)⟩

/-! ### C6: non-syllable passthrough -/

/-- C6: for every character whose codepoint lies outside
`[0xAC00, 0xD7A3]`, the per-character syllable decomposition echoes the
character back unchanged and never raises. -/
theorem C6_non_syllable_passthrough :
    ∀ c : Char, ¬(0xAC00 ≤ c.toNat ∧ c.toNat ≤ 0xD7A3) →
      _hangul_char_to_jamo (String.singleton c) = .ok (.str (String.singleton c)) := by
  intro c h
  have hrange : decide (0xAC00 ≤ c.toNat ∧ c.toNat ≤ 0xD7A3) = false := by
    simpa using h
  unfold _hangul_char_to_jamo
  rw [is_hangul_char_singleton, hrange]
  rfl

/-- Witness for C6 at the Latin letter 'x'. -/
theorem C6_non_syllable_passthrough_witness :
    ¬(0xAC00 ≤ 'x'.toNat ∧ 'x'.toNat ≤ 0xD7A3) ∧
    _hangul_char_to_jamo (String.singleton 'x') = .ok (.str (String.singleton 'x')) :=
  ⟨by decide, C6_non_syllable_passthrough 'x' (by decide)⟩

/-! ### C2: composition/decomposition duality on the modern dictionary -/

theorem exEq_of_eq_ok [BEq α] [LawfulBEq α] {x : Except PyErr α} {v : α}
    (h : x = .ok v) : exEq x v = true := by
  rw [h]; simp [exEq]

theorem compound_sweep :
    (JAMO_COMPOUNDS_MODERN_DICTIONARY.all (fun p =>
      exEq (compose_jamo p.2) p.1 &&
      exEq (decompose_jamo p.1 false false) (.tup p.2))) = true := by decide

/-- C2: for every entry `(compound, (a, b))` of the modern compound
dictionary, `compose_jamo a b` returns `compound` and
`decompose_jamo compound` yields exactly `(a, b)` (already in HCJ form, so
the HCJ/Jamo class normalization of the claim is the identity here); the
entry ㄲ → (ㄱ, ㄱ) is an instance. -/
theorem C2_compound_duality :
    ∀ compound dict_parts,
      (compound, dict_parts) ∈ JAMO_COMPOUNDS_MODERN_DICTIONARY →
      compose_jamo dict_parts = .ok compound ∧
      decompose_jamo compound false false = .ok (.tup dict_parts) := by
  have hs := compound_sweep
  rw [List.all_eq_true] at hs
  intro compound dict_parts hmem
  have := hs (compound, dict_parts) hmem
  rw [Bool.and_eq_true] at this
  exact ⟨eq_ok_of_exEq this.1, eq_ok_of_exEq this.2⟩

/-- Witness for C2 at the entry ㄲ → (ㄱ, ㄱ). -/
theorem C2_compound_duality_witness :
    ("ㄲ", ["ㄱ", "ㄱ"]) ∈ JAMO_COMPOUNDS_MODERN_DICTIONARY ∧
    compose_jamo ["ㄱ", "ㄱ"] = .ok "ㄲ" ∧
    decompose_jamo "ㄲ" false false = .ok (.tup ["ㄱ", "ㄱ"]) :=
  ⟨by decide,
   (C2_compound_duality "ㄲ" ["ㄱ", "ㄱ"] (by decide)).1,
   (C2_compound_duality "ㄲ" ["ㄱ", "ㄱ"] (by decide)).2⟩

/-! ### C7: error behaviour of `decompose_jamo` -/

/-- The codepoint range test of `is_jamo`, as a pure Boolean predicate. -/
def jamoRangeB (n : Nat) : Bool :=
  decide (0x1100 ≤ n ∧ n ≤ 0x11FF) ||
  decide (0xA960 ≤ n ∧ n ≤ 0xA97C) ||
  decide (0xD7B0 ≤ n ∧ n ≤ 0xD7C6) ||
  decide (0xD7CB ≤ n ∧ n ≤ 0xD7FB) ||
  (decide (0x3131 ≤ n ∧ n ≤ 0x318E) && decide (n ≠ 0x3164))

theorem is_jamo_singleton (c : Char) :
    is_jamo (String.singleton c) = .ok (jamoRangeB c.toNat) := by
  unfold is_jamo is_hcj jamoRangeB
  rw [pyOrd_singleton, bind_ok]
  by_cases h : (decide (0x1100 ≤ c.toNat ∧ c.toNat ≤ 0x11FF) ||
      decide (0xA960 ≤ c.toNat ∧ c.toNat ≤ 0xA97C) ||
      decide (0xD7B0 ≤ c.toNat ∧ c.toNat ≤ 0xD7C6) ||
      decide (0xD7CB ≤ c.toNat ∧ c.toNat ≤ 0xD7FB)) = true
  · rw [if_pos h, pure_eq_ok]
    rcases Bool.or_eq_true .. |>.mp h with h' | h'
    · rcases Bool.or_eq_true .. |>.mp h' with h'' | h''
      · rcases Bool.or_eq_true .. |>.mp h'' with h3 | h3 <;> simp [h3]
      · simp [h'']
    · simp [h']
  · rw [if_neg h]
    have hf : (decide (0x1100 ≤ c.toNat ∧ c.toNat ≤ 0x11FF) ||
        decide (0xA960 ≤ c.toNat ∧ c.toNat ≤ 0xA97C) ||
        decide (0xD7B0 ≤ c.toNat ∧ c.toNat ≤ 0xD7C6) ||
        decide (0xD7CB ≤ c.toNat ∧ c.toNat ≤ 0xD7FB)) = false := by
      simpa using h
    rw [bind_ok, pure_eq_ok, hf, Bool.false_or]

/-- The codepoints the embedded UCD name table must contain: the five
Hangul blocks. -/
def jamoBlockList : List Nat :=
  List.range' 0x3131 0x5E ++ List.range' 0x1100 0x100 ++
  List.range' 0xA960 0x1D ++ List.range' 0xD7B0 0x17 ++ List.range' 0xD7CB 0x31

set_option maxRecDepth 40000 in
theorem block_list_covered :
    (jamoBlockList.all (fun n => ucdNames.any (fun p => p.1 == n))) = true := by
  decide

theorem table_has_cp {n : Nat} (h : jamoRangeB n = true) :
    ∃ nm, (n, nm) ∈ ucdNames := by
  have hmem : n ∈ jamoBlockList := by
    unfold jamoRangeB at h
    unfold jamoBlockList
    simp only [List.mem_append, List.mem_range'_1]
    simp only [Bool.or_eq_true, Bool.and_eq_true, decide_eq_true_eq] at h
    omega
  have hall := block_list_covered
  rw [List.all_eq_true] at hall
  have hany := hall n hmem
  rw [List.any_eq_true] at hany
  rcases hany with ⟨⟨pn, pnm⟩, hp, hpn⟩
  rw [beq_iff_eq] at hpn
  subst hpn
  exact ⟨pnm, hp⟩

set_option maxRecDepth 100000 in
set_option maxHeartbeats 12000000 in
theorem non_compound_sweep_c1 :
    (ucdNamesChunk1.all (fun p =>
      !(exEq (is_jamo (chr p.1)) true && exEq (is_jamo_compound (chr p.1)) false) ||
      exEq (decompose_jamo (chr p.1) false false) (.str (chr p.1)))) = true := by
  decide

set_option maxRecDepth 100000 in
set_option maxHeartbeats 12000000 in
theorem non_compound_sweep_c2 :
    (ucdNamesChunk2.all (fun p =>
      !(exEq (is_jamo (chr p.1)) true && exEq (is_jamo_compound (chr p.1)) false) ||
      exEq (decompose_jamo (chr p.1) false false) (.str (chr p.1)))) = true := by
  decide

set_option maxRecDepth 100000 in
set_option maxHeartbeats 12000000 in
theorem non_compound_sweep_c3 :
    (ucdNamesChunk3.all (fun p =>
      !(exEq (is_jamo (chr p.1)) true && exEq (is_jamo_compound (chr p.1)) false) ||
      exEq (decompose_jamo (chr p.1) false false) (.str (chr p.1)))) = true := by
  decide

set_option maxRecDepth 100000 in
set_option maxHeartbeats 12000000 in
theorem non_compound_sweep_c4 :
    (ucdNamesChunk4.all (fun p =>
      !(exEq (is_jamo (chr p.1)) true && exEq (is_jamo_compound (chr p.1)) false) ||
      exEq (decompose_jamo (chr p.1) false false) (.str (chr p.1)))) = true := by
  decide

set_option maxRecDepth 100000 in
set_option maxHeartbeats 12000000 in
theorem non_compound_sweep_c5 :
    (ucdNamesChunk5.all (fun p =>
      !(exEq (is_jamo (chr p.1)) true && exEq (is_jamo_compound (chr p.1)) false) ||
      exEq (decompose_jamo (chr p.1) false false) (.str (chr p.1)))) = true := by
  decide

set_option maxRecDepth 100000 in
set_option maxHeartbeats 12000000 in
theorem non_compound_sweep_c6 :
    (ucdNamesChunk6.all (fun p =>
      !(exEq (is_jamo (chr p.1)) true && exEq (is_jamo_compound (chr p.1)) false) ||
      exEq (decompose_jamo (chr p.1) false false) (.str (chr p.1)))) = true := by
  decide

set_option maxRecDepth 100000 in
set_option maxHeartbeats 12000000 in
theorem non_compound_sweep_c7 :
    (ucdNamesChunk7.all (fun p =>
      !(exEq (is_jamo (chr p.1)) true && exEq (is_jamo_compound (chr p.1)) false) ||
      exEq (decompose_jamo (chr p.1) false false) (.str (chr p.1)))) = true := by
  decide

set_option maxRecDepth 100000 in
set_option maxHeartbeats 12000000 in
theorem non_compound_sweep_c8 :
    (ucdNamesChunk8.all (fun p =>
      !(exEq (is_jamo (chr p.1)) true && exEq (is_jamo_compound (chr p.1)) false) ||
      exEq (decompose_jamo (chr p.1) false false) (.str (chr p.1)))) = true := by
  decide

set_option maxRecDepth 100000 in
set_option maxHeartbeats 12000000 in
theorem non_compound_sweep_c9 :
    (ucdNamesChunk9.all (fun p =>
      !(exEq (is_jamo (chr p.1)) true && exEq (is_jamo_compound (chr p.1)) false) ||
      exEq (decompose_jamo (chr p.1) false false) (.str (chr p.1)))) = true := by
  decide

set_option maxRecDepth 100000 in
set_option maxHeartbeats 12000000 in
theorem non_compound_sweep_c10 :
    (ucdNamesChunk10.all (fun p =>
      !(exEq (is_jamo (chr p.1)) true && exEq (is_jamo_compound (chr p.1)) false) ||
      exEq (decompose_jamo (chr p.1) false false) (.str (chr p.1)))) = true := by
  decide

theorem non_compound_sweep :
    (ucdNames.all (fun p =>
      !(exEq (is_jamo (chr p.1)) true && exEq (is_jamo_compound (chr p.1)) false) ||
      exEq (decompose_jamo (chr p.1) false false) (.str (chr p.1)))) = true := by
  unfold ucdNames
  simp only [List.all_append, non_compound_sweep_c1, non_compound_sweep_c2,
    non_compound_sweep_c3, non_compound_sweep_c4, non_compound_sweep_c5,
    non_compound_sweep_c6, non_compound_sweep_c7, non_compound_sweep_c8,
    non_compound_sweep_c9, non_compound_sweep_c10, Bool.and_self]

/-- C7: `decompose_jamo` raises `InvalidJamoError` on any non-Jamo
character (whatever `verbose`/`strict`); on Jamo input that is not a
compound, with `strict` false, it returns the character unchanged; and
whenever the non-strict result equals the input, the `strict` run raises
`InvalidJamoError`. -/
theorem C7_decompose_jamo_errors :
    (∀ (c : Char) (verbose strict : Bool),
      is_jamo (String.singleton c) = .ok false →
      ∃ m, decompose_jamo (String.singleton c) verbose strict =
        .error (.invalidJamo m)) ∧
    (∀ c : Char,
      is_jamo (String.singleton c) = .ok true →
      is_jamo_compound (String.singleton c) = .ok false →
      decompose_jamo (String.singleton c) false false =
        .ok (.str (String.singleton c))) ∧
    (∀ (c : Char) (verbose : Bool),
      decompose_jamo (String.singleton c) verbose false =
        .ok (.str (String.singleton c)) →
      ∃ m, decompose_jamo (String.singleton c) verbose true =
        .error (.invalidJamo m)) := by
  refine ⟨?_, ?_, ?_⟩
  · intro c verbose strict h
    refine ⟨"Invalid jamo argument." ++ " U+" ++ String.mk (Nat.toDigits 16 c.toNat), ?_⟩
    unfold decompose_jamo decompose_jamo_core
    rw [h, bind_ok]
    rfl
  · intro c h1 h2
    have hr : jamoRangeB c.toNat = true := by
      have := is_jamo_singleton c
      rw [h1] at this
      exact ((Except.ok.injEq _ _).mp this).symm
    rcases table_has_cp hr with ⟨nm, hmem⟩
    have hall := non_compound_sweep
    rw [List.all_eq_true] at hall
    have hb := hall (c.toNat, nm) hmem
    have hc : String.singleton c = chr c.toNat := singleton_eq_chr c
    rw [← hc] at hb
    rw [exEq_of_eq_ok h1, exEq_of_eq_ok h2] at hb
    simpa using eq_ok_of_exEq (by simpa using hb)
  · intro c verbose h
    have hcore : decompose_jamo_core (String.singleton c) verbose =
        .ok (.str (String.singleton c)) := by
      unfold decompose_jamo at h
      rcases hx : decompose_jamo_core (String.singleton c) verbose with r | r
      · rw [hx, bind_err] at h
        exact absurd h (by simp)
      · rw [hx, bind_ok] at h
        by_cases hif : (false = true ∧ (r == PyRes.str (String.singleton c)) = true)
        · exact absurd hif.1 (by simp)
        · rw [if_neg hif, pure_eq_ok] at h
          rw [h]
    refine ⟨"No decomposition found for jamo." ++ " U+" ++
      String.mk (Nat.toDigits 16 c.toNat), ?_⟩
    unfold decompose_jamo
    rw [hcore, bind_ok, if_pos ⟨rfl, by simp⟩]
    unfold raiseInvalidJamo
    rw [pyOrd_singleton, bind_ok]

/-- Witness for C7 at 'x' (not jamo) and U+1100 (jamo, not a compound). -/
theorem C7_decompose_jamo_errors_witness :
    (is_jamo (String.singleton 'x') = .ok false ∧
     ∃ m, decompose_jamo (String.singleton 'x') false false =
       .error (.invalidJamo m)) ∧
    (is_jamo (String.singleton (Char.ofNat 0x1100)) = .ok true ∧
     is_jamo_compound (String.singleton (Char.ofNat 0x1100)) = .ok false ∧
     decompose_jamo (String.singleton (Char.ofNat 0x1100)) false false =
       .ok (.str (String.singleton (Char.ofNat 0x1100)))) ∧
    (∃ m, decompose_jamo (String.singleton (Char.ofNat 0x1100)) false true =
       .error (.invalidJamo m)) :=
  ⟨⟨by rfl, C7_decompose_jamo_errors.1 'x' false false (by rfl)⟩,
   ⟨by rfl, by rfl, C7_decompose_jamo_errors.2.1 (Char.ofNat 0x1100) (by rfl) (by rfl)⟩,
   C7_decompose_jamo_errors.2.2 (Char.ofNat 0x1100) false
     (C7_decompose_jamo_errors.2.1 (Char.ofNat 0x1100) (by rfl) (by rfl))⟩

/-! ### C9: `j2hcj` is a per-character, length-preserving map -/

/-- The total per-character HCJ reduction underlying `_jamo_char_to_hcj`
(which, as proven below, never raises and always returns one character). -/
def hcjChar (c : Char) : Char :=
  match _jamo_char_to_hcj (String.singleton c) with
  | .ok s => s.data.headD c
  | .error _ => c

theorem str_ext {s t : String} (h : s.data = t.data) : s = t := by
  cases s
  cases t
  cases h
  rfl

theorem unicodedata_lookup_shape (nm : String) :
    (∃ q, unicodedata_lookup nm = .ok (chr q)) ∨
    unicodedata_lookup nm = .error .keyError := by
  unfold unicodedata_lookup
  rcases hf : ucdNames.find? (fun p => p.2 == nm) with _ | p
  · rw [hf]
    exact Or.inr rfl
  · rw [hf]
    exact Or.inl ⟨p.1, rfl⟩

theorem unicodedata_name_of_find {c : Char} {p : Nat × String}
    (hf : ucdNames.find? (fun q => q.1 == c.toNat) = some p) :
    unicodedata_name (String.singleton c) = .ok p.2 := by
  unfold unicodedata_name
  rw [pyOrd_singleton, bind_ok, hf]
  rfl

theorem name_isSome_of_range {c : Char} (h : jamoRangeB c.toNat = true) :
    (ucdNames.find? (fun q => q.1 == c.toNat)).isSome := by
  rcases table_has_cp h with ⟨nm, hmem⟩
  rw [List.find?_isSome]
  exact ⟨(c.toNat, nm), hmem, by simp⟩

theorem jamo_char_to_hcj_shape (c : Char) :
    ∃ d : Char, _jamo_char_to_hcj (String.singleton c) = .ok (String.singleton d) := by
  unfold _jamo_char_to_hcj
  rw [is_jamo_singleton, bind_ok]
  by_cases hr : jamoRangeB c.toNat = true
  · rw [if_pos hr]
    rcases hf : ucdNames.find? (fun q => q.1 == c.toNat) with _ | p
    · exact absurd (name_isSome_of_range hr) (by rw [hf]; simp)
    · rw [unicodedata_name_of_find hf, bind_ok]
      rcases unicodedata_lookup_shape (pyReSubHangul "LETTER" p.2) with ⟨q, hq⟩ | hq
      · simp only [hq]
        exact ⟨Char.ofNat q, rfl⟩
      · simp only [hq]
        exact ⟨c, rfl⟩
  · rw [if_neg hr]
    exact ⟨c, rfl⟩

theorem jamo_char_to_hcj_eq_hcjChar (c : Char) :
    _jamo_char_to_hcj (String.singleton c) = .ok (String.singleton (hcjChar c)) := by
  rcases jamo_char_to_hcj_shape c with ⟨d, hd⟩
  have hc : hcjChar c = d := by
    unfold hcjChar
    rw [hd]
    rfl
  rw [hd, hc]

theorem mapM_hcj (l : List Char) :
    l.mapM (fun c => _jamo_char_to_hcj (String.singleton c)) =
      .ok (l.map (fun c => String.singleton (hcjChar c))) := by
  induction l with
  | nil => rfl
  | cons a t ih =>
    rw [List.mapM_cons, jamo_char_to_hcj_eq_hcjChar, bind_ok, ih, bind_ok,
      pure_eq_ok, List.map_cons]

theorem foldl_append_singletons (l : List Char) :
    ∀ acc : String,
      ((l.map (fun c => String.singleton c)).foldl (· ++ ·) acc).data =
        acc.data ++ l := by
  induction l with
  | nil => intro acc; simp
  | cons a t ih =>
    intro acc
    rw [List.map_cons, List.foldl_cons, ih]
    simp [String.singleton]

theorem join_singletons (l : List Char) :
    String.join (l.map (fun c => String.singleton c)) = String.mk l := by
  apply str_ext
  rw [String.join, foldl_append_singletons]
  rfl

/-- C9: `j2hcj` maps each character of its input independently through the
per-character HCJ reduction, in order, producing exactly one output
character per input character; hence the output has exactly the input's
length. -/
theorem C9_j2hcj_length :
    ∀ s : String,
      j2hcj s = .ok (String.mk (s.data.map hcjChar)) ∧
      (String.mk (s.data.map hcjChar)).length = s.length := by
  intro s
  constructor
  · unfold j2hcj jamo_to_hcj
    rw [mapM_hcj, bind_ok, pure_eq_ok]
    have : (s.data.map hcjChar).map (fun c => String.singleton c) =
        s.data.map (fun c => String.singleton (hcjChar c)) := by
      rw [List.map_map]
      rfl
    rw [← this, join_singletons]
  · show (s.data.map hcjChar).length = s.length
    rw [List.length_map]
    rfl

/-! ### C3: error behaviour of `compose_jamo` -/

instance [DecidableEq α] : DecidableEq (Except PyErr α) := fun a b =>
  match a, b with
  | .ok x, .ok y =>
    if h : x = y then .isTrue (by rw [h]) else .isFalse (by simp [h])
  | .ok _, .error _ => .isFalse (by simp)
  | .error _, .ok _ => .isFalse (by simp)
  | .error e, .error f =>
    if h : e = f then .isTrue (by rw [h]) else .isFalse (by simp [h])

theorem mapM_guard_err {α : Type} (Q : α → Prop) [DecidablePred Q] (e : PyErr) :
    ∀ l : List α, (∃ p ∈ l, ¬Q p) →
      l.mapM (fun p => if ¬Q p then (.error e : Except PyErr Unit) else pure ()) =
        .error e := by
  intro l
  induction l with
  | nil => rintro ⟨p, hp, _⟩; exact absurd hp (by simp)
  | cons a t ih =>
    rintro ⟨p, hp, hq⟩
    rw [List.mapM_cons]
    by_cases ha : Q a
    · rw [if_neg (by simpa using ha), pure_bind_ok]
      rcases List.mem_cons.mp hp with rfl | hpt
      · exact absurd ha hq
      · rw [ih ⟨p, hpt, hq⟩, bind_err]
    · rw [if_pos ha, bind_err]

theorem mapM_guard_ok {α : Type} (Q : α → Prop) [DecidablePred Q] (e : PyErr) :
    ∀ l : List α, (∀ p ∈ l, Q p) →
      l.mapM (fun p => if ¬Q p then (.error e : Except PyErr Unit) else pure ()) =
        .ok (l.map fun _ => ()) := by
  intro l
  induction l with
  | nil => intro _; rfl
  | cons a t ih =>
    intro h
    rw [List.mapM_cons, if_neg (by simpa using h a (by simp)), pure_bind_ok,
      ih (fun p hp => h p (List.mem_cons_of_mem a hp)), bind_ok, List.map_cons]
    rfl

/-- Bool-level check that a computation succeeds. -/
def exIsOk : Except PyErr α → Bool
  | .ok _ => true
  | .error _ => false

theorem exIsOk_shape {x : Except PyErr α} (h : exIsOk x = true) : ∃ v, x = .ok v := by
  cases x with
  | ok v => exact ⟨v, rfl⟩
  | error e => simp [exIsOk] at h

theorem dict_parts_hcj_ok :
    (JAMO_COMPOUNDS_MODERN_DICTIONARY.all (fun e => exIsOk (e.2.mapM j2hcj))) = true := by
  decide

theorem findCompound_none {hc : List String} :
    ∀ dict : List (String × List String),
      (∀ e ∈ dict, ∃ v, e.2.mapM j2hcj = .ok v) →
      (∀ e ∈ dict, e.2.mapM j2hcj ≠ .ok hc) →
      findCompound hc dict = .ok none := by
  intro dict
  induction dict with
  | nil => intro _ _; rfl
  | cons a t ih =>
    intro hok hne
    rcases hok a (by simp) with ⟨v, hv⟩
    have hvne : (hc == v) = false := by
      rw [beq_eq_false_iff_ne]
      intro he
      exact hne a (by simp) (he ▸ hv)
    show (do
        let hcdict_parts ← a.2.mapM j2hcj
        if hc == hcdict_parts then do
          let ij ← is_jamo a.1
          if ij then pure (some a.1) else findCompound hc t
        else findCompound hc t) = .ok none
    rw [hv, bind_ok, hvne]
    exact ih (fun e he => hok e (List.mem_cons_of_mem a he))
      (fun e he => hne e (List.mem_cons_of_mem a he))

theorem pyOrd_of_len1 {s : String} (h : pyLen s = 1) : ∃ o, pyOrd s = .ok o := by
  unfold pyLen at h
  unfold pyOrd
  match hs : s.data with
  | [] => rw [hs] at h; simp at h
  | [c] => exact ⟨c.toNat, rfl⟩
  | a :: b :: t => rw [hs] at h; simp at h

theorem mapM_msg_ok :
    ∀ parts : List String, (∀ p ∈ parts, pyLen p = 1) →
      ∃ v, parts.mapM (fun p => do
        let o ← pyOrd p
        pure (p ++ "(U+" ++ String.mk (Nat.toDigits 16 o) ++ ")")) = .ok v := by
  intro parts
  induction parts with
  | nil => intro _; exact ⟨[], rfl⟩
  | cons a t ih =>
    intro h
    rcases pyOrd_of_len1 (h a (by simp)) with ⟨o, ho⟩
    rcases ih (fun p hp => h p (List.mem_cons_of_mem a hp)) with ⟨v, hv⟩
    refine ⟨(a ++ "(U+" ++ String.mk (Nat.toDigits 16 o) ++ ")") :: v, ?_⟩
    rw [List.mapM_cons, ho, bind_ok, pure_eq_ok, bind_ok, hv, bind_ok, pure_eq_ok]

/-- C3: `compose_jamo` raises a type error (never `InvalidJamoError`)
whenever some argument is not exactly one character; and with 2 or 3
single-character arguments whose HCJ reductions match no entry of the
modern compound dictionary it fails with `InvalidJamoError` (never
silently returns a compound). -/
theorem C3_compose_jamo_errors :
    (∀ parts : List String,
      (∃ p ∈ parts, pyLen p ≠ 1) →
      ∃ m, compose_jamo parts = .error (.typeError m)) ∧
    (∀ (parts hc : List String),
      (parts.length = 2 ∨ parts.length = 3) →
      (∀ p ∈ parts, pyLen p = 1) →
      parts.mapM j2hcj = .ok hc →
      (∀ e ∈ JAMO_COMPOUNDS_MODERN_DICTIONARY, e.2.mapM j2hcj ≠ .ok hc) →
      ∃ m, compose_jamo parts = .error (.invalidJamo m)) := by
  constructor
  · intro parts ⟨p, hp, hlen⟩
    refine ⟨"compose_jamo() expected 2-3 single characters", ?_⟩
    unfold compose_jamo
    rw [mapM_guard_err
      (fun q => pyLen q = 1 ∧ 2 ≤ parts.length ∧ parts.length ≤ 3) _ parts
      ⟨p, hp, fun hq => hlen hq.1⟩, bind_err]
  · intro parts hc hlen h1 hmap hnone
    have hq : ∀ p ∈ parts, (pyLen p = 1 ∧ 2 ≤ parts.length ∧ parts.length ≤ 3) := by
      intro p hp
      exact ⟨h1 p hp, by omega, by omega⟩
    have hok : ∀ e ∈ JAMO_COMPOUNDS_MODERN_DICTIONARY, ∃ v, e.2.mapM j2hcj = .ok v := by
      have := dict_parts_hcj_ok
      rw [List.all_eq_true] at this
      intro e he
      exact exIsOk_shape (this e he)
    rcases mapM_msg_ok parts h1 with ⟨v, hv⟩
    refine ⟨"Could not synthesize characters to compound: " ++
      String.intercalate ", " v, ?_⟩
    unfold compose_jamo
    rw [mapM_guard_ok
      (fun q => pyLen q = 1 ∧ 2 ≤ parts.length ∧ parts.length ≤ 3) _ parts hq,
      bind_ok, hmap, bind_ok, findCompound_none _ hok hnone, bind_ok, hv, bind_ok]

/-- Witness for C3: a multi-character argument raises the type error, and
the archaic-cluster pair (ㄴ, ㄱ) — absent from the modern dictionary —
raises `InvalidJamoError`. -/
theorem C3_compose_jamo_errors_witness :
    (∃ m, compose_jamo ["ab", "ㄱ"] = .error (.typeError m)) ∧
    (∃ m, compose_jamo ["ㄴ", "ㄱ"] = .error (.invalidJamo m)) :=
  ⟨C3_compose_jamo_errors.1 ["ab", "ㄱ"] ⟨"ab", by simp, by decide⟩,
   C3_compose_jamo_errors.2 ["ㄴ", "ㄱ"] ["ㄴ", "ㄱ"] (Or.inl rfl)
     (by decide) (by rfl) (by decide)⟩

/-! ### C5: `jamo_to_hcj` never raises on jamo and is idempotent -/

set_option maxRecDepth 40000 in
theorem letter_entry_sweep_c1 :
    (ucdNamesChunk1.all (fun e =>
      !("HANGUL LETTER".data.isPrefixOf e.2.data) ||
      (jamoRangeB e.1 &&
       decide (ucdNames.find? (fun x => x.1 == e.1) = some e)))) = true := by
  decide

set_option maxRecDepth 40000 in
theorem letter_entry_sweep_c2 :
    (ucdNamesChunk2.all (fun e =>
      !("HANGUL LETTER".data.isPrefixOf e.2.data) ||
      (jamoRangeB e.1 &&
       decide (ucdNames.find? (fun x => x.1 == e.1) = some e)))) = true := by
  decide

set_option maxRecDepth 40000 in
theorem letter_entry_sweep_c3 :
    (ucdNamesChunk3.all (fun e =>
      !("HANGUL LETTER".data.isPrefixOf e.2.data) ||
      (jamoRangeB e.1 &&
       decide (ucdNames.find? (fun x => x.1 == e.1) = some e)))) = true := by
  decide

set_option maxRecDepth 40000 in
theorem letter_entry_sweep_c4 :
    (ucdNamesChunk4.all (fun e =>
      !("HANGUL LETTER".data.isPrefixOf e.2.data) ||
      (jamoRangeB e.1 &&
       decide (ucdNames.find? (fun x => x.1 == e.1) = some e)))) = true := by
  decide

set_option maxRecDepth 40000 in
theorem letter_entry_sweep_c5 :
    (ucdNamesChunk5.all (fun e =>
      !("HANGUL LETTER".data.isPrefixOf e.2.data) ||
      (jamoRangeB e.1 &&
       decide (ucdNames.find? (fun x => x.1 == e.1) = some e)))) = true := by
  decide

set_option maxRecDepth 40000 in
theorem letter_entry_sweep_c6 :
    (ucdNamesChunk6.all (fun e =>
      !("HANGUL LETTER".data.isPrefixOf e.2.data) ||
      (jamoRangeB e.1 &&
       decide (ucdNames.find? (fun x => x.1 == e.1) = some e)))) = true := by
  decide

set_option maxRecDepth 40000 in
theorem letter_entry_sweep_c7 :
    (ucdNamesChunk7.all (fun e =>
      !("HANGUL LETTER".data.isPrefixOf e.2.data) ||
      (jamoRangeB e.1 &&
       decide (ucdNames.find? (fun x => x.1 == e.1) = some e)))) = true := by
  decide

set_option maxRecDepth 40000 in
theorem letter_entry_sweep_c8 :
    (ucdNamesChunk8.all (fun e =>
      !("HANGUL LETTER".data.isPrefixOf e.2.data) ||
      (jamoRangeB e.1 &&
       decide (ucdNames.find? (fun x => x.1 == e.1) = some e)))) = true := by
  decide

set_option maxRecDepth 40000 in
theorem letter_entry_sweep_c9 :
    (ucdNamesChunk9.all (fun e =>
      !("HANGUL LETTER".data.isPrefixOf e.2.data) ||
      (jamoRangeB e.1 &&
       decide (ucdNames.find? (fun x => x.1 == e.1) = some e)))) = true := by
  decide

set_option maxRecDepth 40000 in
theorem letter_entry_sweep_c10 :
    (ucdNamesChunk10.all (fun e =>
      !("HANGUL LETTER".data.isPrefixOf e.2.data) ||
      (jamoRangeB e.1 &&
       decide (ucdNames.find? (fun x => x.1 == e.1) = some e)))) = true := by
  decide

theorem ucdNames_eq_chunks :
    ucdNames = ucdNamesChunk1 ++ ucdNamesChunk2 ++ ucdNamesChunk3 ++
      ucdNamesChunk4 ++ ucdNamesChunk5 ++ ucdNamesChunk6 ++ ucdNamesChunk7 ++
      ucdNamesChunk8 ++ ucdNamesChunk9 ++ ucdNamesChunk10 := rfl

/-- Every table entry whose name begins "HANGUL LETTER" lies in the HCJ
block (hence is jamo), and is the entry `unicodedata_name` finds for its
codepoint (codepoints are unique in the table). -/
theorem letter_entry_sweep :
    (ucdNames.all (fun e =>
      !("HANGUL LETTER".data.isPrefixOf e.2.data) ||
      (jamoRangeB e.1 &&
       decide (ucdNames.find? (fun x => x.1 == e.1) = some e)))) = true := by
  nth_rewrite 1 [ucdNames_eq_chunks]
  simp only [List.all_append, letter_entry_sweep_c1, letter_entry_sweep_c2,
    letter_entry_sweep_c3, letter_entry_sweep_c4, letter_entry_sweep_c5,
    letter_entry_sweep_c6, letter_entry_sweep_c7, letter_entry_sweep_c8,
    letter_entry_sweep_c9, letter_entry_sweep_c10, Bool.and_self]

set_option maxRecDepth 40000 in
theorem sub_letter_sweep_c1 :
    (ucdNamesChunk1.all (fun p =>
      ("HANGUL LETTER".data.isPrefixOf (pyReSubHangul "LETTER" p.2).data) &&
      decide (pyReSubHangul "LETTER" (pyReSubHangul "LETTER" p.2) =
        pyReSubHangul "LETTER" p.2))) = true := by
  decide

set_option maxRecDepth 40000 in
theorem sub_letter_sweep_c2 :
    (ucdNamesChunk2.all (fun p =>
      ("HANGUL LETTER".data.isPrefixOf (pyReSubHangul "LETTER" p.2).data) &&
      decide (pyReSubHangul "LETTER" (pyReSubHangul "LETTER" p.2) =
        pyReSubHangul "LETTER" p.2))) = true := by
  decide

set_option maxRecDepth 40000 in
theorem sub_letter_sweep_c3 :
    (ucdNamesChunk3.all (fun p =>
      ("HANGUL LETTER".data.isPrefixOf (pyReSubHangul "LETTER" p.2).data) &&
      decide (pyReSubHangul "LETTER" (pyReSubHangul "LETTER" p.2) =
        pyReSubHangul "LETTER" p.2))) = true := by
  decide

set_option maxRecDepth 40000 in
theorem sub_letter_sweep_c4 :
    (ucdNamesChunk4.all (fun p =>
      ("HANGUL LETTER".data.isPrefixOf (pyReSubHangul "LETTER" p.2).data) &&
      decide (pyReSubHangul "LETTER" (pyReSubHangul "LETTER" p.2) =
        pyReSubHangul "LETTER" p.2))) = true := by
  decide

set_option maxRecDepth 40000 in
theorem sub_letter_sweep_c5 :
    (ucdNamesChunk5.all (fun p =>
      ("HANGUL LETTER".data.isPrefixOf (pyReSubHangul "LETTER" p.2).data) &&
      decide (pyReSubHangul "LETTER" (pyReSubHangul "LETTER" p.2) =
        pyReSubHangul "LETTER" p.2))) = true := by
  decide

set_option maxRecDepth 40000 in
theorem sub_letter_sweep_c6 :
    (ucdNamesChunk6.all (fun p =>
      ("HANGUL LETTER".data.isPrefixOf (pyReSubHangul "LETTER" p.2).data) &&
      decide (pyReSubHangul "LETTER" (pyReSubHangul "LETTER" p.2) =
        pyReSubHangul "LETTER" p.2))) = true := by
  decide

set_option maxRecDepth 40000 in
theorem sub_letter_sweep_c7 :
    (ucdNamesChunk7.all (fun p =>
      ("HANGUL LETTER".data.isPrefixOf (pyReSubHangul "LETTER" p.2).data) &&
      decide (pyReSubHangul "LETTER" (pyReSubHangul "LETTER" p.2) =
        pyReSubHangul "LETTER" p.2))) = true := by
  decide

set_option maxRecDepth 40000 in
theorem sub_letter_sweep_c8 :
    (ucdNamesChunk8.all (fun p =>
      ("HANGUL LETTER".data.isPrefixOf (pyReSubHangul "LETTER" p.2).data) &&
      decide (pyReSubHangul "LETTER" (pyReSubHangul "LETTER" p.2) =
        pyReSubHangul "LETTER" p.2))) = true := by
  decide

set_option maxRecDepth 40000 in
theorem sub_letter_sweep_c9 :
    (ucdNamesChunk9.all (fun p =>
      ("HANGUL LETTER".data.isPrefixOf (pyReSubHangul "LETTER" p.2).data) &&
      decide (pyReSubHangul "LETTER" (pyReSubHangul "LETTER" p.2) =
        pyReSubHangul "LETTER" p.2))) = true := by
  decide

set_option maxRecDepth 40000 in
theorem sub_letter_sweep_c10 :
    (ucdNamesChunk10.all (fun p =>
      ("HANGUL LETTER".data.isPrefixOf (pyReSubHangul "LETTER" p.2).data) &&
      decide (pyReSubHangul "LETTER" (pyReSubHangul "LETTER" p.2) =
        pyReSubHangul "LETTER" p.2))) = true := by
  decide

/-- Substituting "LETTER" into any table name yields a name beginning
"HANGUL LETTER", and substituting again changes nothing. -/
theorem sub_letter_sweep :
    (ucdNames.all (fun p =>
      ("HANGUL LETTER".data.isPrefixOf (pyReSubHangul "LETTER" p.2).data) &&
      decide (pyReSubHangul "LETTER" (pyReSubHangul "LETTER" p.2) =
        pyReSubHangul "LETTER" p.2))) = true := by
  unfold ucdNames
  simp only [List.all_append, sub_letter_sweep_c1, sub_letter_sweep_c2,
    sub_letter_sweep_c3, sub_letter_sweep_c4, sub_letter_sweep_c5,
    sub_letter_sweep_c6, sub_letter_sweep_c7, sub_letter_sweep_c8,
    sub_letter_sweep_c9, sub_letter_sweep_c10, Bool.and_self]

theorem jamoRangeB_lt {n : Nat} (h : jamoRangeB n = true) : n < 0xD800 := by
  unfold jamoRangeB at h
  simp only [Bool.or_eq_true, Bool.and_eq_true, decide_eq_true_eq] at h
  omega

theorem unicodedata_lookup_of_find {nm : String} {e : Nat × String}
    (h : ucdNames.find? (fun q => q.2 == nm) = some e) :
    unicodedata_lookup nm = .ok (chr e.1) := by
  unfold unicodedata_lookup
  rw [h]

theorem unicodedata_lookup_of_find_none {nm : String}
    (h : ucdNames.find? (fun q => q.2 == nm) = none) :
    unicodedata_lookup nm = .error .keyError := by
  unfold unicodedata_lookup
  rw [h]

/-- Unfolding `_jamo_char_to_hcj` on a jamo character whose table entry is
known. -/
theorem jamo_char_to_hcj_unfold {c : Char} (hr : jamoRangeB c.toNat = true)
    {p : Nat × String} (hf : ucdNames.find? (fun q => q.1 == c.toNat) = some p) :
    _jamo_char_to_hcj (String.singleton c) =
      match unicodedata_lookup (pyReSubHangul "LETTER" p.2) with
      | .ok r => pure r
      | .error .keyError => pure (String.singleton c)
      | .error e => .error e := by
  unfold _jamo_char_to_hcj
  rw [is_jamo_singleton, bind_ok, if_pos hr, unicodedata_name_of_find hf, bind_ok]

/-- C5: the per-character jamo-to-HCJ conversion (i) never raises on any
valid jamo character, (ii) is idempotent — whatever character it produces
is a fixed point — and (iii) echoes the input back unchanged whenever the
"LETTER"-substituted name does not resolve. -/
theorem C5_jamo_to_hcj_idempotent :
    (∀ c : Char, is_jamo (String.singleton c) = .ok true →
      ∃ r, _jamo_char_to_hcj (String.singleton c) = .ok r) ∧
    (∀ (c : Char) (r : String),
      _jamo_char_to_hcj (String.singleton c) = .ok r →
      _jamo_char_to_hcj r = .ok r) ∧
    (∀ (c : Char) (nm : String),
      is_jamo (String.singleton c) = .ok true →
      unicodedata_name (String.singleton c) = .ok nm →
      unicodedata_lookup (pyReSubHangul "LETTER" nm) = .error .keyError →
      _jamo_char_to_hcj (String.singleton c) = .ok (String.singleton c)) := by
  refine ⟨?_, ?_, ?_⟩
  · intro c _
    rcases jamo_char_to_hcj_shape c with ⟨d, hd⟩
    exact ⟨String.singleton d, hd⟩
  · intro c r h
    by_cases hr : jamoRangeB c.toNat = true
    · rcases hf : ucdNames.find? (fun q => q.1 == c.toNat) with _ | p
      · exact absurd (name_isSome_of_range hr) (by rw [hf]; simp)
      rw [jamo_char_to_hcj_unfold hr hf] at h
      rcases hg : ucdNames.find? (fun e => e.2 == pyReSubHangul "LETTER" p.2)
        with _ | e
      · rw [unicodedata_lookup_of_find_none hg] at h
        have h2 : (Except.ok (String.singleton c) : Except PyErr String) = .ok r := h
        have hr2 : r = String.singleton c := ((Except.ok.injEq .. ).mp h2).symm
        subst hr2
        rw [jamo_char_to_hcj_unfold hr hf, unicodedata_lookup_of_find_none hg]
        rfl
      · rw [unicodedata_lookup_of_find hg] at h
        have h2 : (Except.ok (chr e.1) : Except PyErr String) = .ok r := h
        have hr2 : r = chr e.1 := ((Except.ok.injEq .. ).mp h2).symm
        subst hr2
        have he2 : e.2 = pyReSubHangul "LETTER" p.2 := by
          have := List.find?_some hg
          rwa [beq_iff_eq] at this
        have hsubs := sub_letter_sweep
        rw [List.all_eq_true] at hsubs
        have hps := hsubs p (List.mem_of_find?_eq_some hf)
        rw [Bool.and_eq_true, decide_eq_true_eq] at hps
        rcases hps with ⟨hpfx, hsub⟩
        have hes := letter_entry_sweep
        rw [List.all_eq_true] at hes
        have hpe := hes e (List.mem_of_find?_eq_some hg)
        rw [Bool.or_eq_true, Bool.and_eq_true, decide_eq_true_eq] at hpe
        rcases hpe with hbad | ⟨hjam, hfind_e⟩
        · rw [Bool.not_eq_true'] at hbad
          rw [← he2] at hpfx
          exact absurd hpfx (by simp [hbad])
        have helt : e.1 < 0xD800 := jamoRangeB_lt hjam
        have htn : (Char.ofNat e.1).toNat = e.1 := toNat_ofNat_eq (Or.inl helt)
        have hjam2 : jamoRangeB (Char.ofNat e.1).toNat = true := by
          rw [htn]; exact hjam
        have hfind2 : ucdNames.find? (fun x => x.1 == (Char.ofNat e.1).toNat) =
            some e := by
          rw [htn]; exact hfind_e
        show _jamo_char_to_hcj (String.singleton (Char.ofNat e.1)) = .ok (chr e.1)
        rw [jamo_char_to_hcj_unfold hjam2 hfind2, he2, hsub,
          unicodedata_lookup_of_find hg]
        rfl
    · unfold _jamo_char_to_hcj at h
      rw [is_jamo_singleton, bind_ok, if_neg hr] at h
      have h2 : (Except.ok (String.singleton c) : Except PyErr String) = .ok r := h
      have hr2 : r = String.singleton c := ((Except.ok.injEq .. ).mp h2).symm
      subst hr2
      unfold _jamo_char_to_hcj
      rw [is_jamo_singleton, bind_ok, if_neg hr]
      rfl
  · intro c nm hj hn hl
    have hr : jamoRangeB c.toNat = true := by
      have := is_jamo_singleton c
      rw [hj] at this
      exact ((Except.ok.injEq .. ).mp this).symm
    rcases hf : ucdNames.find? (fun q => q.1 == c.toNat) with _ | p
    · exact absurd (name_isSome_of_range hr) (by rw [hf]; simp)
    have hnm : nm = p.2 := by
      have h1 := unicodedata_name_of_find (c := c) hf
      rw [hn] at h1
      exact (Except.ok.injEq .. ).mp h1.symm |>.symm
    subst hnm
    rw [jamo_char_to_hcj_unfold hr hf, hl]
    rfl

/-- Witness for C5 at U+1100 (resolves to ㄱ) and U+A960 (whose edited name
fails to resolve and is echoed back). -/
theorem C5_jamo_to_hcj_idempotent_witness :
    (∃ r, _jamo_char_to_hcj (String.singleton (Char.ofNat 0x1100)) = .ok r) ∧
    _jamo_char_to_hcj "ㄱ" = .ok "ㄱ" ∧
    _jamo_char_to_hcj (String.singleton (Char.ofNat 0xA960)) =
      .ok (String.singleton (Char.ofNat 0xA960)) :=
  ⟨C5_jamo_to_hcj_idempotent.1 (Char.ofNat 0x1100) (by rfl),
   C5_jamo_to_hcj_idempotent.2.1 (Char.ofNat 0x1100) "ㄱ" (by rfl),
   C5_jamo_to_hcj_idempotent.2.2 (Char.ofNat 0xA960)
     "HANGUL CHOSEONG TIKEUT-MIEUM" (by rfl) (by rfl) (by rfl)⟩

/-! ### C1: syllable decompose/compose round-trip -/

set_option maxRecDepth 40000 in
theorem modern_lead_sweep :
    ((List.range' 0x1100 0x13).all (fun n =>
      exEq (hcj_to_jamo (chr n) "lead") (chr n) &&
      exEq (is_jamo (chr n)) true &&
      exEq (get_jamo_class (chr n)) "lead")) = true := by decide

set_option maxRecDepth 40000 in
theorem modern_vowel_sweep :
    ((List.range' 0x1161 0x15).all (fun n =>
      exEq (hcj_to_jamo (chr n) "vowel") (chr n) &&
      exEq (is_jamo (chr n)) true &&
      exEq (get_jamo_class (chr n)) "vowel")) = true := by decide

set_option maxRecDepth 40000 in
theorem modern_tail_sweep :
    ((List.range' 0x11A8 0x1B).all (fun n =>
      exEq (is_jamo (chr n)) true &&
      exEq (get_jamo_class (chr n)) "tail")) = true := by decide

theorem lead_facts {n : Nat} (h1 : 0x1100 ≤ n) (h2 : n ≤ 0x1112) :
    hcj_to_jamo (chr n) "lead" = .ok (chr n) ∧ is_jamo (chr n) = .ok true ∧
    get_jamo_class (chr n) = .ok "lead" := by
  have hs := modern_lead_sweep
  rw [List.all_eq_true] at hs
  have hb := hs n (List.mem_range'_1.mpr ⟨h1, by omega⟩)
  simp only [Bool.and_eq_true] at hb
  exact ⟨eq_ok_of_exEq hb.1.1, eq_ok_of_exEq hb.1.2, eq_ok_of_exEq hb.2⟩

theorem vowel_facts {n : Nat} (h1 : 0x1161 ≤ n) (h2 : n ≤ 0x1175) :
    hcj_to_jamo (chr n) "vowel" = .ok (chr n) ∧ is_jamo (chr n) = .ok true ∧
    get_jamo_class (chr n) = .ok "vowel" := by
  have hs := modern_vowel_sweep
  rw [List.all_eq_true] at hs
  have hb := hs n (List.mem_range'_1.mpr ⟨h1, by omega⟩)
  simp only [Bool.and_eq_true] at hb
  exact ⟨eq_ok_of_exEq hb.1.1, eq_ok_of_exEq hb.1.2, eq_ok_of_exEq hb.2⟩

theorem tail_facts {n : Nat} (h1 : 0x11A8 ≤ n) (h2 : n ≤ 0x11C2) :
    is_jamo (chr n) = .ok true ∧ get_jamo_class (chr n) = .ok "tail" := by
  have hs := modern_tail_sweep
  rw [List.all_eq_true] at hs
  have hb := hs n (List.mem_range'_1.mpr ⟨h1, by omega⟩)
  simp only [Bool.and_eq_true] at hb
  exact ⟨eq_ok_of_exEq hb.1, eq_ok_of_exEq hb.2⟩

theorem chr_ne_empty (n : Nat) : chr n ≠ "" := by
  intro h
  have hd := congrArg String.data h
  rw [chr, singleton_data] at hd
  exact absurd hd (by simp [String.data])

/-- `jamo_to_hangul(*parts)` on a decomposition tuple (`tail` defaults to
the empty string as in the source). -/
def applyJamoToHangul (parts : List String) : Except PyErr String :=
  match parts with
  | [l, v] => jamo_to_hangul l v ""
  | [l, v, t] => jamo_to_hangul l v t
  | _ => .error (.typeError "jamo_to_hangul() arity")

theorem normTail_empty : jamoToHangulNormTail "" = .ok none := rfl

theorem normTail_jamo_tail {n : Nat} (h1 : 0x11A8 ≤ n) (h2 : n ≤ 0x11C2) :
    jamoToHangulNormTail (chr n) = .ok (some (chr n)) := by
  unfold jamoToHangulNormTail
  rw [if_neg (chr_ne_empty n), pyOrd_chr (by omega), bind_ok]
  rw [if_neg (by simp [Nat.beq_eq_true_eq]; omega)]
  have hhcj : is_hcj (chr n) = .ok false := by
    unfold is_hcj
    rw [pyOrd_chr (by omega), bind_ok]
    rw [pure_eq_ok]
    have hd1 : decide (0x3131 ≤ n ∧ n ≤ 0x318E) = false := by
      rw [decide_eq_false_iff_not]
      omega
    rw [hd1, Bool.false_and]
  rw [hhcj, bind_ok]
  rw [if_neg (by simp)]
  rfl

theorem valid_none {ls vs : String}
    (h1 : is_jamo ls = .ok true) (h2 : get_jamo_class ls = .ok "lead")
    (h3 : is_jamo vs = .ok true) (h4 : get_jamo_class vs = .ok "vowel") :
    jamoToHangulValid ls vs none = .ok true := by
  unfold jamoToHangulValid
  rw [h1, bind_ok]
  rw [if_pos rfl, h2, bind_ok]
  rw [if_pos (by rfl), h3, bind_ok]
  rw [if_pos rfl, h4, bind_ok]
  rw [if_pos (by rfl)]
  rfl

theorem valid_some {ls vs ts : String}
    (h1 : is_jamo ls = .ok true) (h2 : get_jamo_class ls = .ok "lead")
    (h3 : is_jamo vs = .ok true) (h4 : get_jamo_class vs = .ok "vowel")
    (h5 : is_jamo ts = .ok true) (h6 : get_jamo_class ts = .ok "tail") :
    jamoToHangulValid ls vs (some ts) = .ok true := by
  unfold jamoToHangulValid
  rw [h1, bind_ok]
  rw [if_pos rfl, h2, bind_ok]
  rw [if_pos (by rfl), h3, bind_ok]
  rw [if_pos rfl, h4, bind_ok]
  rw [if_pos (by rfl)]
  show (do
    let it ← is_jamo ts
    if it then do
      let ct ← get_jamo_class ts
      pure (ct == "tail")
    else pure false : Except PyErr Bool) = .ok true
  rw [h5, bind_ok]
  rw [if_pos rfl, h6, bind_ok]
  rfl

theorem jamo_to_hangul_char_none {ls vs : String} {lo vo : Nat}
    (hl : pyOrd ls = .ok lo) (hv : pyOrd vs = .ok vo) :
    _jamo_to_hangul_char ls vs none =
      pyChr ((0 : Int) + (((vo : Nat) : Int) - 0x1160 - 1) * 28 +
        (((lo : Nat) : Int) - 0x10FF - 1) * 588 + 44032) := by
  unfold _jamo_to_hangul_char
  rw [hl, bind_ok]
  rw [hv, bind_ok]
  rfl

theorem jamo_to_hangul_char_some {ls vs ts : String} {lo vo tlo : Nat}
    (hl : pyOrd ls = .ok lo) (hv : pyOrd vs = .ok vo) (ht : pyOrd ts = .ok tlo) :
    _jamo_to_hangul_char ls vs (some ts) =
      pyChr ((((tlo : Nat) : Int) - 0x11A7) + (((vo : Nat) : Int) - 0x1160 - 1) * 28 +
        (((lo : Nat) : Int) - 0x10FF - 1) * 588 + 44032) := by
  unfold _jamo_to_hangul_char
  rw [hl, bind_ok]
  rw [hv, bind_ok]
  show (do
      let t ← do
        let tlo2 ← pyOrd ts
        pure ((tlo2 : Int) - 0x11A7)
      pyChr (t + (((vo : Nat) : Int) - 0x1160 - 1) * 28 +
        (((lo : Nat) : Int) - 0x10FF - 1) * 588 + 44032) : Except PyErr String) = _
  rw [ht, bind_ok]
  rfl

/-- Evaluation of `jamo_to_hangul` once the behaviour of each stage is
known. -/
theorem jamo_to_hangul_eval {ls vs ts : String} {l2 v2 : String}
    {tailOpt : Option String}
    (hl : hcj_to_jamo ls "lead" = .ok l2) (hv : hcj_to_jamo vs "vowel" = .ok v2)
    (ht : jamoToHangulNormTail ts = .ok tailOpt)
    (hc : jamoToHangulValid l2 v2 tailOpt = .ok true)
    {res : String} (hr : _jamo_to_hangul_char l2 v2 tailOpt = .ok res)
    (hh : is_hangul_char res = .ok true) :
    jamo_to_hangul ls vs ts = .ok res := by
  unfold jamo_to_hangul
  rw [hl, bind_ok]
  rw [hv, bind_ok]
  rw [ht, bind_ok]
  rw [hc, bind_ok]
  rw [if_pos rfl, hr, bind_ok]
  rw [hh, bind_ok]
  rw [if_pos rfl]
  rfl

/-- C1: for every Hangul syllable codepoint in `[0xAC00, 0xD7A3]`,
`jamo_to_hangul` applied to the 2- or 3-tuple produced by the
per-character syllable decomposition returns exactly that syllable. -/
theorem C1_roundtrip :
    ∀ cp : Nat, 0xAC00 ≤ cp → cp ≤ 0xD7A3 →
      ∃ parts, _hangul_char_to_jamo (chr cp) = .ok (.tup parts) ∧
        applyJamoToHangul parts = .ok (chr cp) := by
  intro cp h1 h2
  have hv : cp < 0xD800 := by omega
  have hrange : decide (0xAC00 ≤ cp ∧ cp ≤ 0xD7A3) = true := by simp [h1, h2]
  have hlb1 : 0x1100 ≤ 1 + (cp - 44032) / 588 + 0x10FF := by omega
  have hlb2 : 1 + (cp - 44032) / 588 + 0x10FF ≤ 0x1112 := by omega
  have hvb1 : 0x1161 ≤ 1 + ((cp - 44032) - (cp - 44032) % 28) % 588 / 28 + 0x1160 := by
    omega
  have hvb2 : 1 + ((cp - 44032) - (cp - 44032) % 28) % 588 / 28 + 0x1160 ≤ 0x1175 := by
    omega
  have hfl := lead_facts hlb1 hlb2
  have hfv := vowel_facts hvb1 hvb2
  have hhang : is_hangul_char (chr cp) = .ok true := by
    rw [is_hangul_char_chr hv, hrange]
  have hpy : pyChr ((cp : Int)) = .ok (chr cp) := by
    unfold pyChr
    rw [if_pos ⟨by omega, by omega⟩]
    rfl
  by_cases h0 : (cp - 44032) % 28 = 0
  · refine ⟨[chr (1 + (cp - 44032) / 588 + 0x10FF),
      chr (1 + ((cp - 44032) - (cp - 44032) % 28) % 588 / 28 + 0x1160)], ?_, ?_⟩
    · unfold _hangul_char_to_jamo
      rw [is_hangul_char_chr hv, hrange, bind_ok, if_pos rfl, pyOrd_chr hv, bind_ok]
      simp [h0, pure_eq_ok]
    · show jamo_to_hangul (chr (1 + (cp - 44032) / 588 + 0x10FF))
        (chr (1 + ((cp - 44032) - (cp - 44032) % 28) % 588 / 28 + 0x1160)) "" =
        .ok (chr cp)
      have hjc := jamo_to_hangul_char_none
        (pyOrd_chr (show 1 + (cp - 44032) / 588 + 0x10FF < 0xD800 by omega))
        (pyOrd_chr
          (show 1 + ((cp - 44032) - (cp - 44032) % 28) % 588 / 28 + 0x1160 < 0xD800 by
            omega))
      have harith : ((0 : Int) +
          (((1 + ((cp - 44032) - (cp - 44032) % 28) % 588 / 28 + 0x1160 : Nat) : Int) -
            0x1160 - 1) * 28 +
          (((1 + (cp - 44032) / 588 + 0x10FF : Nat) : Int) - 0x10FF - 1) * 588 +
          44032) = (cp : Int) := by
        push_cast
        omega
      rw [harith, hpy] at hjc
      exact jamo_to_hangul_eval hfl.1 hfv.1 normTail_empty
        (valid_none hfl.2.1 hfl.2.2 hfv.2.1 hfv.2.2) hjc hhang
  · refine ⟨[chr (1 + (cp - 44032) / 588 + 0x10FF),
      chr (1 + ((cp - 44032) - (cp - 44032) % 28) % 588 / 28 + 0x1160),
      chr ((cp - 44032) % 28 + 0x11A7)], ?_, ?_⟩
    · unfold _hangul_char_to_jamo
      rw [is_hangul_char_chr hv, hrange, bind_ok, if_pos rfl, pyOrd_chr hv, bind_ok]
      simp [h0, pure_eq_ok]
    · have htb1 : 0x11A8 ≤ (cp - 44032) % 28 + 0x11A7 := by omega
      have htb2 : (cp - 44032) % 28 + 0x11A7 ≤ 0x11C2 := by omega
      have hft := tail_facts htb1 htb2
      show jamo_to_hangul (chr (1 + (cp - 44032) / 588 + 0x10FF))
        (chr (1 + ((cp - 44032) - (cp - 44032) % 28) % 588 / 28 + 0x1160))
        (chr ((cp - 44032) % 28 + 0x11A7)) = .ok (chr cp)
      have hjc := jamo_to_hangul_char_some
        (pyOrd_chr (show 1 + (cp - 44032) / 588 + 0x10FF < 0xD800 by omega))
        (pyOrd_chr
          (show 1 + ((cp - 44032) - (cp - 44032) % 28) % 588 / 28 + 0x1160 < 0xD800 by
            omega))
        (pyOrd_chr (show (cp - 44032) % 28 + 0x11A7 < 0xD800 by omega))
      have harith : (((((cp - 44032) % 28 + 0x11A7 : Nat) : Int) - 0x11A7) +
          (((1 + ((cp - 44032) - (cp - 44032) % 28) % 588 / 28 + 0x1160 : Nat) : Int) -
            0x1160 - 1) * 28 +
          (((1 + (cp - 44032) / 588 + 0x10FF : Nat) : Int) - 0x10FF - 1) * 588 +
          44032) = (cp : Int) := by
        push_cast
        omega
      rw [harith, hpy] at hjc
      exact jamo_to_hangul_eval hfl.1 hfv.1 (normTail_jamo_tail htb1 htb2)
        (valid_some hfl.2.1 hfl.2.2 hfv.2.1 hfv.2.2 hft.1 hft.2) hjc hhang


/-- Witness for C1 at the syllable '한' (U+D55C). -/
theorem C1_roundtrip_witness :
    (0xAC00 ≤ 0xD55C ∧ 0xD55C ≤ 0xD7A3) ∧
    ∃ parts, _hangul_char_to_jamo (chr 0xD55C) = .ok (.tup parts) ∧
      applyJamoToHangul parts = .ok (chr 0xD55C) :=
  ⟨by decide, C1_roundtrip 0xD55C (by decide) (by decide)⟩

end JamoSpec
